import Mathlib

/-!
Verification development for the `altair_nx` drawing module
(`src/altair_nx/draw_altair.py`).

The Python module is a pure, synchronous transformation from a graph plus a
position mapping to a layered declarative chart.  We embed the relevant data
model shallowly:

* machine floats become `ℚ` (the module performs only field arithmetic, and the
  claims under study are exact-arithmetic claims);
* pandas dataframes become a record of columns, dtype strings and rows (only
  the fields the drawing functions actually consult: column names, dtype
  strings, row labels and the values of the `pair` column);
* Altair charts become a list of layers, each a record of data, mark type,
  constant mark attributes and data-driven encodings;
* Python's dynamically typed styling arguments become the inductive `Arg`,
  and raised exceptions become `Except PyErr`.

The tabular projectors `to_pandas_edges`, `to_pandas_edge_arrows` and
`to_pandas_nodes` live in `core.py`, which is not part of the sources under
study; they are modelled from the specification (see their doc comments).
-/

/-- Python exceptions raised by the module, by class. -/
inductive PyErr
  | typeError (msg : String)
  | valueError (msg : String)
  | keyError (msg : String)
  | indexError (msg : String)
  | zeroDivisionError
deriving DecidableEq

/-- A Python value supplied for a dynamically dispatched parameter: the
drawing functions branch on `isinstance(x, str)`, `isinstance(x, (float, int))`,
`isinstance(x, list)` and `x is None`. -/
inductive Arg
  | pstr (s : String)
  | pint (n : Int)
  | pfloat (q : ℚ)
  | pnone
  | plist (l : List String)
deriving DecidableEq

def Arg.isStr : Arg → Bool | .pstr _ => true | _ => false

def Arg.isInt : Arg → Bool | .pint _ => true | _ => false

def Arg.isNum : Arg → Bool | .pint _ => true | .pfloat _ => true | _ => false

/-- Python truthiness (`if node_label:`): `None`, `0`, `''` and `[]` are falsy. -/
def Arg.truthy : Arg → Bool
  | .pstr s => !(s == "")
  | .pint n => !(n == 0)
  | .pfloat q => !(q == 0)
  | .pnone => false
  | .plist l => !(l.isEmpty)

/-- One dataframe row: its index label and the value of its `pair` column
(empty for node dataframes, which have no `pair` column). -/
structure Row where
  label : String
  pair : String
deriving DecidableEq

/-- The portion of a pandas dataframe the drawing functions consult. -/
structure DFrame where
  columns : List String
  dtypes : List (String × String)
  rows : List Row
deriving DecidableEq

def DFrame.nrows (df : DFrame) : Nat := df.rows.length

/-- `df.dtypes[c]`; dtype string `"O"` marks a non-numeric (object) column. -/
def DFrame.dtypeOf (df : DFrame) (c : String) : String :=
  ((df.dtypes.find? (fun p => p.1 = c)).map Prod.snd).getD ""

/-- `df.loc[df['pair'].isin(subset)]`: boolean-mask filtering; labels absent
from the data silently match nothing. -/
def DFrame.isinPairFilter (df : DFrame) (subset : List String) : DFrame :=
  { df with rows := df.rows.filter (fun r => subset.contains r.pair) }

/-- `df.loc[subset]` for a list of index labels: label-based row selection,
which raises a `KeyError` when any requested label is missing from the index. -/
def DFrame.locRows (df : DFrame) (subset : List String) : Except PyErr DFrame :=
  if ∀ l ∈ subset, ∃ r ∈ df.rows, r.label = l then
    .ok { df with rows := subset.flatMap (fun l => df.rows.filter (fun r => r.label = l)) }
  else .error (.keyError "some labels are not in the index")

/-- A constant mark attribute value (`mark_line(strokeWidth = 3, ...)`). -/
inductive MarkVal
  | mstr (s : String)
  | mint (n : Int)
  | mfloat (q : ℚ)
deriving DecidableEq

/-- A data-driven encoding value: which Altair encoding object a channel is
bound to.  `fieldEnc` is a bare column-name string (e.g. `opacity = alpha`);
`colorSchemeNoLegend` is `alt.Color(col, scale = alt.Scale(scheme = cmap))`
as built by `draw_networkx_nodes`, which passes no legend argument. -/
inductive EncVal
  | sizeEnc (col : String) (legend : Bool)
  | colorEnc (col : String) (legend : Bool)
  | colorSchemeEnc (col : String) (scheme : String) (legend : Bool)
  | colorSchemeNoLegend (col : String) (scheme : String)
  | shapeEnc (col : String) (legend : Bool)
  | fieldEnc (col : String)
  | tooltipEnc (cols : List String)
deriving DecidableEq

/-- Python dict assignment `d[k] = v`: replace in place if present, else append. -/
def setAttr {α : Type} (l : List (String × α)) (k : String) (v : α) : List (String × α) :=
  if l.any (fun p => p.1 = k) then l.map (fun p => if p.1 = k then (k, v) else p)
  else l ++ [(k, v)]

/-- Dict lookup `d.get(k)`. -/
def getAttr {α : Type} (l : List (String × α)) (k : String) : Option α :=
  (l.find? (fun p => p.1 = k)).map Prod.snd

/-- One chart layer: its bound record set, mark type, constant mark attributes
and data-driven encodings. -/
structure ChartLayer where
  data : DFrame
  markType : String
  markAttrs : List (String × MarkVal)
  encodings : List (String × EncVal)
deriving DecidableEq

/-- `alt.Chart(df)`: a fresh layer bound to a record set, before any mark or
encoding is set. -/
def ChartLayer.ofData (df : DFrame) : ChartLayer := ⟨df, "", [], []⟩

/-- A (possibly layered) Altair chart: ordered layers plus size properties. -/
structure Chart where
  layer : List ChartLayer
  width : Option ℚ
  height : Option ℚ
deriving DecidableEq

/-- A networkx graph: directedness flag, node list and edge list. -/
structure Graph where
  directed : Bool
  nodes : List String
  edges : List (String × String)
deriving DecidableEq

/-- `nx.selfloop_edges(G)`. -/
def Graph.selfloop_edges (g : Graph) : List (String × String) :=
  g.edges.filter (fun e => e.1 = e.2)

/-- `G.remove_edges_from(es)` (as a functional update). -/
def Graph.remove_edges_from (g : Graph) (es : List (String × String)) : Graph :=
  { g with edges := g.edges.filter (fun e => ¬ es.contains e) }

/-- A node with no incident edge (degree 0), as `nx.isolates` reports. -/
def Graph.isIsolate (g : Graph) (n : String) : Bool :=
  g.edges.all (fun e => ¬ (e.1 = n ∨ e.2 = n))

/-- `list(nx.isolates(G))`. -/
def Graph.isolates (g : Graph) : List String := g.nodes.filter g.isIsolate

/-- `G.remove_nodes_from(ns)` (as a functional update); networkx also drops
edges incident to removed nodes. -/
def Graph.remove_nodes_from (g : Graph) (ns : List String) : Graph :=
  { g with nodes := g.nodes.filter (fun n => ¬ ns.contains n),
           edges := g.edges.filter (fun e => ¬ ns.contains e.1 ∧ ¬ ns.contains e.2) }

/-- A position mapping: node identifier to 2D rational coordinate, in the
insertion order of the Python dict. -/
abbrev Pos := List (String × ℚ × ℚ)

/-- Modelled from the spec: the combined pair name of an edge ("combined pair
name" column of an edge record).  The exact string format is immaterial to the
claims; only that every row of an edge carries its edge's pair name. -/
def pairName (e : String × String) : String := e.1 ++ "," ++ e.2

/-- Modelled from the spec: `to_pandas_edges` from `core.py` (not among the
sources under study).  For every edge it emits an N-point self-loop ring
(`loop_n_points` rows) for self-loops, a 2-row straight path otherwise, plus
one row per control point when curved edges are requested; every row carries
the `pair` name, and the columns are edge identifier, order, source, target,
pair, x, y (coordinates and the order index are numeric, names are objects). -/
def to_pandas_edges (g : Graph) (pos : Pos) (control_points : Option (List (ℚ × ℚ)))
    (loop_radius loop_angle : ℚ) (loop_n_points : Nat) : DFrame :=
  { columns := ["edge", "order", "source", "target", "pair", "x", "y"],
    dtypes := [("edge", "O"), ("order", "int64"), ("source", "O"), ("target", "O"),
               ("pair", "O"), ("x", "float64"), ("y", "float64")],
    rows := g.edges.flatMap (fun e =>
      let n := if e.1 = e.2 then loop_n_points
               else 2 + (match control_points with | some cps => cps.length | none => 0)
      List.replicate n { label := pairName e, pair := pairName e }) }

/-- Modelled from the spec: `to_pandas_edge_arrows` from `core.py` (not among
the sources under study).  For every edge it emits exactly 2 rows (arrow
segment start and end), annotated like edge rows minus the order column. -/
def to_pandas_edge_arrows (g : Graph) (pos : Pos) (length : ℚ)
    (length_is_relative : Bool) (control_points : Option (List (ℚ × ℚ))) : DFrame :=
  { columns := ["edge", "source", "target", "pair", "x", "y"],
    dtypes := [("edge", "O"), ("source", "O"), ("target", "O"),
               ("pair", "O"), ("x", "float64"), ("y", "float64")],
    rows := g.edges.flatMap (fun e =>
      List.replicate 2 { label := pairName e, pair := pairName e }) }

/-- Modelled from the spec: `to_pandas_nodes` from `core.py` (not among the
sources under study).  One row per node, indexed by the node identifier, with
columns node, x, y. -/
def to_pandas_nodes (g : Graph) (pos : Pos) : DFrame :=
  { columns := ["node", "x", "y"],
    dtypes := [("node", "O"), ("x", "float64"), ("y", "float64")],
    rows := g.nodes.map (fun n => { label := n, pair := "" }) }

/-- Maximum of a list of rationals (Python `max` over a nonempty sequence;
0 as a junk value on the empty list, which the code never reaches). -/
def lmax : List ℚ → ℚ
  | [] => 0
  | [x] => x
  | x :: y :: t => max x (lmax (y :: t))

/-- Minimum of a list of rationals (Python `min`; junk 0 on the empty list). -/
def lmin : List ℚ → ℚ
  | [] => 0
  | [x] => x
  | x :: y :: t => min x (lmin (y :: t))

/-- The x coordinates of a position mapping, in order (`pos_xs`). -/
def xsOf (pos : Pos) : List ℚ := pos.map (fun p => p.2.1)

/-- The y coordinates of a position mapping, in order (`pos_ys`). -/
def ysOf (pos : Pos) : List ℚ := pos.map (fun p => p.2.2)

/-- Embedding of the coordinate-scaling block of `draw_networkx`
(draw_altair.py lines 535-545): reject both chart sizes `None`; unpack the
coordinates (a `ValueError` on an empty mapping, as `zip(*pos.values())`
raises); derive a missing chart size from the data aspect; normalise each
axis to [0,1] (a zero range collapsing to 0); then, when the chart sizes
differ, stretch the axis of the larger chart size by their quotient.
Division by zero raises, as in Python. -/
def scale_positions (pos : Pos) (chart_width chart_height : Option ℚ) :
    Except PyErr (Pos × ℚ × ℚ) := do
  if chart_width.isNone ∧ chart_height.isNone then
    throw (.valueError "chart_width and chart_height cannot both be None; if one is None then the other is determined by the graphs own aspect proportions.")
  if pos.isEmpty then
    throw (.valueError "not enough values to unpack (expected 2, got 0)")
  let xs := xsOf pos
  let ys := ysOf pos
  let x_range := lmax xs - lmin xs
  let y_range := lmax ys - lmin ys
  let cw ← match chart_width, chart_height with
    | some w, _ => pure w
    | none, some h =>
        if y_range = 0 then throw .zeroDivisionError else pure (h * x_range / y_range)
    | none, none => throw (.valueError "unreachable: both sizes None")
  let ch ← match chart_height with
    | some h => pure h
    | none =>
        if x_range = 0 then throw .zeroDivisionError else pure (cw * y_range / x_range)
  let pos1 : Pos := pos.map (fun p =>
    (p.1, if x_range = 0 then 0 else (p.2.1 - lmin xs) / x_range,
          if y_range = 0 then 0 else (p.2.2 - lmin ys) / y_range))
  let pos2 ← if cw ≠ ch then
      if cw ≥ ch then
        if ch = 0 then throw .zeroDivisionError
        else pure (pos1.map (fun p => (p.1, p.2.1 * (cw / ch), p.2.2)))
      else
        if cw = 0 then throw .zeroDivisionError
        else pure (pos1.map (fun p => (p.1, p.2.1, p.2.2 * (ch / cw))))
    else pure pos1
  pure (pos2, cw, ch)

abbrev MAttrs := List (String × MarkVal)

abbrev EAttrs := List (String × EncVal)

/-- Embedding of the shared `subset` handling of the edge and arrow drawers
(`df.loc[df['pair'].isin(subset)]`, else `TypeError` unless `None`). -/
def subsetPairStep (subset : Arg) (df : DFrame) : Except PyErr DFrame :=
  match subset with
  | .plist l => .ok (df.isinPairFilter l)
  | .pnone => .ok df
  | _ => .error (.typeError "subset must be a list or None.")

/-- Embedding of the shared node-`subset` handling of the node and label
drawers (`df.loc[subset]`, else `TypeError` unless `None`). -/
def subsetLocStep (subset : Arg) (df : DFrame) : Except PyErr DFrame :=
  match subset with
  | .plist l => df.locRows l
  | .pnone => .ok df
  | _ => .error (.typeError "node_subset must be a list or None.")

/-- Width handling of `draw_networkx_edges`: a string always becomes a
`strokeWidth` encoding (no column-membership test), a number a constant. -/
def widthStepEdges (legend : Bool) (width : Arg) (acc : MAttrs × EAttrs) :
    Except PyErr (MAttrs × EAttrs) :=
  match width with
  | .pstr s => .ok (acc.1, setAttr acc.2 "strokeWidth" (.sizeEnc s legend))
  | .pint n => .ok (setAttr acc.1 "strokeWidth" (.mint n), acc.2)
  | .pfloat q => .ok (setAttr acc.1 "strokeWidth" (.mfloat q), acc.2)
  | _ => .error (.typeError "width must be a string or int.")

/-- Width handling of `draw_networkx_arrows`: as for edges but the encoded
channel is `size`. -/
def widthStepArrows (legend : Bool) (width : Arg) (acc : MAttrs × EAttrs) :
    Except PyErr (MAttrs × EAttrs) :=
  match width with
  | .pstr s => .ok (acc.1, setAttr acc.2 "size" (.sizeEnc s legend))
  | .pint n => .ok (setAttr acc.1 "strokeWidth" (.mint n), acc.2)
  | .pfloat q => .ok (setAttr acc.1 "strokeWidth" (.mfloat q), acc.2)
  | _ => .error (.typeError "arrow_width must be a string or int.")

/-- Colour handling shared verbatim by the edge and arrow drawers: a
non-string is a `TypeError`; a string naming a column becomes a `color`
encoding (through the colormap when `cmap` is given, rejecting non-numeric
columns); any other string becomes a constant colour. -/
def colourStepEdges (df : DFrame) (legend : Bool) (colour cmap : Arg)
    (acc : MAttrs × EAttrs) : Except PyErr (MAttrs × EAttrs) :=
  match colour with
  | .pstr s =>
    if s ∈ df.columns then
      match cmap with
      | .pnone => .ok (acc.1, setAttr acc.2 "color" (.colorEnc s legend))
      | .pstr m =>
          if df.dtypeOf s = "O" then
            .error (.typeError "the edge attribute to use with cmap is non-numeric.")
          else .ok (acc.1, setAttr acc.2 "color" (.colorSchemeEnc s m legend))
      | _ => .error (.typeError "cmap must be a string (colourmap name) or None.")
    else .ok (setAttr acc.1 "color" (.mstr s), acc.2)
  | _ => .error (.typeError "colour must be a string (either a colour or an edge attribute containing colour strings or floats for a colour map).")

/-- Opacity handling, identical in the edge, arrow and node drawers: a string
becomes an `opacity` encoding, a number a constant, `None` is skipped. -/
def alphaStep (alpha : Arg) (acc : MAttrs × EAttrs) :
    Except PyErr (MAttrs × EAttrs) :=
  match alpha with
  | .pstr s => .ok (acc.1, setAttr acc.2 "opacity" (.fieldEnc s))
  | .pint n => .ok (setAttr acc.1 "opacity" (.mint n), acc.2)
  | .pfloat q => .ok (setAttr acc.1 "opacity" (.mfloat q), acc.2)
  | .pnone => .ok acc
  | _ => .error (.typeError "alpha must be a string or None.")

/-- Interpolation handling of `draw_networkx_edges`, active only when
`curved_edges` is set. -/
def interpStepEdges (curved_edges : Bool) (interpolation : Arg)
    (acc : MAttrs × EAttrs) : Except PyErr (MAttrs × EAttrs) :=
  if curved_edges then
    match interpolation with
    | .pstr s => .ok (setAttr acc.1 "interpolate" (.mstr s), acc.2)
    | _ => .error (.typeError "interpolate must be a string.")
  else .ok acc

/-- Tooltip handling, identical in the drawers that accept it. -/
def tooltipStep (tooltip : Option (List String)) (acc : MAttrs × EAttrs) :
    MAttrs × EAttrs :=
  match tooltip with
  | some t => (acc.1, setAttr acc.2 "tooltip" (.tooltipEnc t))
  | none => acc

/-- Data-source selection of `draw_networkx_edges` (lines 71-81): a supplied
layer wins, then the first layer of a supplied chart, then a graph projected
through `to_pandas_edges` (computing a layout when `pos is None`); all three
absent is a `ValueError`. -/
def edgesSource (layout : Graph → Pos) (G : Option Graph) (pos : Option Pos)
    (chart : Option Chart) (layer : Option ChartLayer)
    (control_points : Option (List (ℚ × ℚ))) (loop_radius loop_angle : ℚ)
    (loop_n_points : Nat) : Except PyErr (DFrame × ChartLayer) :=
  match layer, chart, G with
  | some l, _, _ => .ok (l.data, l)
  | none, some c, _ =>
      match c.layer.get? 0 with
      | some l0 => .ok (l0.data, l0)
      | none => .error (.indexError "list index out of range")
  | none, none, some g =>
      let pos1 := match pos with | some l => l | none => layout g
      let df := to_pandas_edges g pos1 control_points loop_radius loop_angle loop_n_points
      .ok (df, ChartLayer.ofData df)
  | none, none, none => .error (.valueError "one of G, chart or layer is required to draw.")

/-- The layer constructed by `draw_networkx_edges` (lines 68-129): adjust the
control points, select the data source, then handle each styling argument in
program order and attach the line mark and the positional encodings. -/
def edgesBuild (layout : Graph → Pos) (G : Option Graph) (pos : Option Pos)
    (chart : Option Chart) (layer : Option ChartLayer) (subset : Arg)
    (width colour cmap alpha : Arg) (tooltip : Option (List String)) (legend : Bool)
    (loop_radius loop_angle : ℚ) (loop_n_points : Nat)
    (curved_edges : Bool) (control_points : Option (List (ℚ × ℚ)))
    (interpolation : Arg) : Except PyErr ChartLayer := do
  let control_points := if curved_edges ∧ control_points = none then some [((1 : ℚ)/2, (1 : ℚ)/10)]
                        else if ¬ curved_edges then none else control_points
  let (df, _base) ← edgesSource layout G pos chart layer control_points loop_radius loop_angle loop_n_points
  let df1 ← subsetPairStep subset df
  let acc1 ← widthStepEdges legend width ([], [])
  let acc2 ← colourStepEdges df1 legend colour cmap acc1
  let acc3 ← alphaStep alpha acc2
  let acc4 ← interpStepEdges curved_edges interpolation acc3
  let acc5 := tooltipStep tooltip acc4
  pure { data := df1, markType := "line", markAttrs := acc5.1,
         encodings := [("x", .fieldEnc "x"), ("y", .fieldEnc "y"),
                       ("detail", .fieldEnc "edge"), ("order", .fieldEnc "order")] ++ acc5.2 }

/-- Embedding of `draw_networkx_edges` (lines 12-133).  The external layout
provider is passed explicitly as `layout`.  Returns the constructed layer and,
when a pre-existing chart was supplied, that chart with its first layer
replaced (the documented in-place aliasing effect of line 131). -/
def draw_networkx_edges (layout : Graph → Pos) (G : Option Graph) (pos : Option Pos)
    (chart : Option Chart) (layer : Option ChartLayer) (subset : Arg)
    (width colour cmap alpha : Arg) (tooltip : Option (List String)) (legend : Bool)
    (loop_radius loop_angle : ℚ) (loop_n_points : Nat)
    (curved_edges : Bool) (control_points : Option (List (ℚ × ℚ)))
    (interpolation : Arg) : Except PyErr (ChartLayer × Option Chart) := do
  let res ← edgesBuild layout G pos chart layer subset width colour cmap alpha tooltip
      legend loop_radius loop_angle loop_n_points curved_edges control_points interpolation
  pure (res, chart.map (fun c => { c with layer := c.layer.set 0 res }))

/-- Data-source selection of `draw_networkx_arrows` (lines 176-186): same
precedence as for edges, the graph case projecting through
`to_pandas_edge_arrows`. -/
def arrowsSource (layout : Graph → Pos) (G : Option Graph) (pos : Option Pos)
    (chart : Option Chart) (layer : Option ChartLayer) (length : ℚ)
    (length_is_relative : Bool) (control_points : Option (List (ℚ × ℚ))) :
    Except PyErr (DFrame × ChartLayer) :=
  match layer, chart, G with
  | some l, _, _ => .ok (l.data, l)
  | none, some c, _ =>
      match c.layer.get? 0 with
      | some l0 => .ok (l0.data, l0)
      | none => .error (.indexError "list index out of range")
  | none, none, some g =>
      let pos1 := match pos with | some l => l | none => layout g
      let df := to_pandas_edge_arrows g pos1 length length_is_relative control_points
      .ok (df, ChartLayer.ofData df)
  | none, none, none => .error (.valueError "one of G, chart or layer is required to draw.")

/-- The layer constructed by `draw_networkx_arrows` (lines 173-229). -/
def arrowsBuild (layout : Graph → Pos) (G : Option Graph) (pos : Option Pos)
    (chart : Option Chart) (layer : Option ChartLayer) (subset : Arg)
    (width : Arg) (length : ℚ) (length_is_relative : Bool)
    (colour cmap alpha : Arg) (tooltip : Option (List String)) (legend : Bool)
    (curved_edges : Bool) (control_points : Option (List (ℚ × ℚ))) :
    Except PyErr ChartLayer := do
  let control_points := if curved_edges ∧ control_points = none then some [((1 : ℚ)/2, (1 : ℚ)/10)]
                        else if ¬ curved_edges then none else control_points
  let (df, _base) ← arrowsSource layout G pos chart layer length length_is_relative control_points
  let df1 ← subsetPairStep subset df
  let acc1 ← widthStepArrows legend width ([], [])
  let acc2 ← colourStepEdges df1 legend colour cmap acc1
  let acc3 ← alphaStep alpha acc2
  let acc4 := tooltipStep tooltip acc3
  pure { data := df1, markType := "line", markAttrs := acc4.1,
         encodings := [("x", .fieldEnc "x"), ("y", .fieldEnc "y"),
                       ("detail", .fieldEnc "edge")] ++ acc4.2 }

/-- Embedding of `draw_networkx_arrows` (lines 137-233), with the in-place
first-layer replacement of a supplied chart (line 231). -/
def draw_networkx_arrows (layout : Graph → Pos) (G : Option Graph) (pos : Option Pos)
    (chart : Option Chart) (layer : Option ChartLayer) (subset : Arg)
    (width : Arg) (length : ℚ) (length_is_relative : Bool)
    (colour cmap alpha : Arg) (tooltip : Option (List String)) (legend : Bool)
    (curved_edges : Bool) (control_points : Option (List (ℚ × ℚ))) :
    Except PyErr (ChartLayer × Option Chart) := do
  let res ← arrowsBuild layout G pos chart layer subset width length length_is_relative
      colour cmap alpha tooltip legend curved_edges control_points
  pure (res, chart.map (fun c => { c with layer := c.layer.set 0 res }))

/-- Node-size handling of `draw_networkx_nodes`: a string becomes a `size`
encoding (no membership test); only an int (not a float) is accepted as a
constant. -/
def sizeStepNodes (legend : Bool) (size : Arg) (acc : MAttrs × EAttrs) :
    Except PyErr (MAttrs × EAttrs) :=
  match size with
  | .pstr s => .ok (acc.1, setAttr acc.2 "size" (.sizeEnc s legend))
  | .pint n => .ok (setAttr acc.1 "size" (.mint n), acc.2)
  | _ => .error (.typeError "node_size must be a string or int.")

/-- Outline-width handling of `draw_networkx_nodes`. -/
def outlineStepNodes (legend : Bool) (outline_width : Arg) (acc : MAttrs × EAttrs) :
    Except PyErr (MAttrs × EAttrs) :=
  match outline_width with
  | .pstr s => .ok (acc.1, setAttr acc.2 "strokeWidth" (.sizeEnc s legend))
  | .pint n => .ok (setAttr acc.1 "strokeWidth" (.mint n), acc.2)
  | .pfloat q => .ok (setAttr acc.1 "strokeWidth" (.mfloat q), acc.2)
  | _ => .error (.typeError "linewidths must be a string or int.")

/-- Shape handling of `draw_networkx_nodes`: membership in the columns decides
between a `shape` encoding and a constant shape. -/
def shapeStepNodes (df : DFrame) (legend : Bool) (shape : Arg) (acc : MAttrs × EAttrs) :
    Except PyErr (MAttrs × EAttrs) :=
  match shape with
  | .pstr s =>
      if s ∈ df.columns then .ok (acc.1, setAttr acc.2 "shape" (.shapeEnc s legend))
      else .ok (setAttr acc.1 "shape" (.mstr s), acc.2)
  | _ => .error (.typeError "shape must be a string (either an altair point-mark shape or an edge attribute containing the same).")

/-- Colour handling of `draw_networkx_nodes`: membership decides between a
bare `fill` encoding and a constant fill; note that, unlike the edge and
arrow drawers, no colormap or dtype logic appears here. -/
def colourStepNodes (df : DFrame) (colour : Arg) (acc : MAttrs × EAttrs) :
    Except PyErr (MAttrs × EAttrs) :=
  match colour with
  | .pstr s =>
      if s ∈ df.columns then .ok (acc.1, setAttr acc.2 "fill" (.fieldEnc s))
      else .ok (setAttr acc.1 "fill" (.mstr s), acc.2)
  | _ => .error (.typeError "node_colour must be a string.")

/-- Colormap handling of `draw_networkx_nodes` (lines 319-322): whenever
`cmap` is a string the `fill` channel is overwritten with a colormap-scaled
encoding of `colour`, with no check that `colour` names a column nor that the
column is numeric. -/
def cmapStepNodes (colour cmap : Arg) (acc : MAttrs × EAttrs) :
    Except PyErr (MAttrs × EAttrs) :=
  match cmap with
  | .pstr m =>
      match colour with
      | .pstr s => .ok (acc.1, setAttr acc.2 "fill" (.colorSchemeNoLegend s m))
      | _ => .error (.typeError "unreachable: colour was checked to be a string")
  | .pnone => .ok acc
  | _ => .error (.typeError "cmap must be a string (colourmap name) or None.")

/-- Data-source selection of `draw_networkx_nodes` (lines 271-281): layer,
then the SECOND layer of a supplied chart, then the graph projected through
`to_pandas_nodes`. -/
def nodesSource (layout : Graph → Pos) (G : Option Graph) (pos : Option Pos)
    (chart : Option Chart) (layer : Option ChartLayer) :
    Except PyErr (DFrame × ChartLayer) :=
  match layer, chart, G with
  | some l, _, _ => .ok (l.data, l)
  | none, some c, _ =>
      match c.layer.get? 1 with
      | some l1 => .ok (l1.data, l1)
      | none => .error (.indexError "list index out of range")
  | none, none, some g =>
      let pos1 := match pos with | some l => l | none => layout g
      let df := to_pandas_nodes g pos1
      .ok (df, ChartLayer.ofData df)
  | none, none, none => .error (.valueError "one of G, chart or layer is required to draw.")

/-- The layer constructed by `draw_networkx_nodes` (lines 271-334). -/
def nodesBuild (layout : Graph → Pos) (G : Option Graph) (pos : Option Pos)
    (chart : Option Chart) (layer : Option ChartLayer) (subset : Arg)
    (size outline_width shape colour cmap alpha : Arg)
    (tooltip : Option (List String)) (legend : Bool) :
    Except PyErr ChartLayer := do
  let (df, _base) ← nodesSource layout G pos chart layer
  let df1 ← subsetLocStep subset df
  let acc1 ← sizeStepNodes legend size ([], [])
  let acc2 ← outlineStepNodes legend outline_width acc1
  let acc3 ← shapeStepNodes df1 legend shape acc2
  let acc4 ← colourStepNodes df1 colour acc3
  let acc5 ← alphaStep alpha acc4
  let acc6 ← cmapStepNodes colour cmap acc5
  let acc7 := tooltipStep tooltip acc6
  pure { data := df1, markType := "point", markAttrs := acc7.1,
         encodings := [("x", .fieldEnc "x"), ("y", .fieldEnc "y")] ++ acc7.2 }

/-- Embedding of `draw_networkx_nodes` (lines 237-338), with the in-place
second-layer replacement of a supplied chart (line 336). -/
def draw_networkx_nodes (layout : Graph → Pos) (G : Option Graph) (pos : Option Pos)
    (chart : Option Chart) (layer : Option ChartLayer) (subset : Arg)
    (size outline_width shape colour cmap alpha : Arg)
    (tooltip : Option (List String)) (legend : Bool) :
    Except PyErr (ChartLayer × Option Chart) := do
  let res ← nodesBuild layout G pos chart layer subset size outline_width shape colour
      cmap alpha tooltip legend
  pure (res, chart.map (fun c => { c with layer := c.layer.set 1 res }))

/-- Label-text handling of `draw_networkx_labels` (lines 388-391): a
non-string label — including the default `None` — is a `TypeError`; a string
naming a column becomes a `text` encoding, otherwise a constant text. -/
def labelStep (df : DFrame) (label : Arg) (acc : MAttrs × EAttrs) :
    Except PyErr (MAttrs × EAttrs) :=
  match label with
  | .pstr s =>
      if s ∈ df.columns then .ok (acc.1, setAttr acc.2 "text" (.fieldEnc s))
      else .ok (setAttr acc.1 "text" (.mstr s), acc.2)
  | _ => .error (.typeError "label must be a string.")

/-- Font-size handling of `draw_networkx_labels` (legend suppressed). -/
def fontSizeStep (font_size : Arg) (acc : MAttrs × EAttrs) :
    Except PyErr (MAttrs × EAttrs) :=
  match font_size with
  | .pstr s => .ok (acc.1, setAttr acc.2 "size" (.sizeEnc s false))
  | .pint n => .ok (setAttr acc.1 "size" (.mint n), acc.2)
  | _ => .error (.typeError "font_size must be a string or int.")

/-- Font-colour handling of `draw_networkx_labels`. -/
def fontColourStep (df : DFrame) (font_colour : Arg) (acc : MAttrs × EAttrs) :
    Except PyErr (MAttrs × EAttrs) :=
  match font_colour with
  | .pstr s =>
      if s ∈ df.columns then .ok (acc.1, setAttr acc.2 "fill" (.fieldEnc s))
      else .ok (setAttr acc.1 "fill" (.mstr s), acc.2)
  | _ => .error (.typeError "font_color must be a string.")

/-- Embedding of `draw_networkx_labels` (lines 342-414); the data-source
selection is identical to the node drawer's, including reading the second
layer of a supplied chart. -/
def labelsBuild (layout : Graph → Pos) (G : Option Graph) (pos : Option Pos)
    (chart : Option Chart) (layer : Option ChartLayer) (subset : Arg)
    (label font_size font_colour : Arg) :
    Except PyErr ChartLayer := do
  let (df, _base) ← nodesSource layout G pos chart layer
  let df1 ← subsetLocStep subset df
  let acc1 ← labelStep df1 label ([], [])
  let acc2 ← fontSizeStep font_size acc1
  let acc3 ← fontColourStep df1 font_colour acc2
  pure { data := df1, markType := "text",
         markAttrs := [("baseline", .mstr "middle")] ++ acc3.1,
         encodings := [("x", .fieldEnc "x"), ("y", .fieldEnc "y")] ++ acc3.2 }

/-- Embedding of `draw_networkx_labels` (lines 342-414), with the in-place
second-layer replacement of a supplied chart (line 412). -/
def draw_networkx_labels (layout : Graph → Pos) (G : Option Graph) (pos : Option Pos)
    (chart : Option Chart) (layer : Option ChartLayer) (subset : Arg)
    (label font_size font_colour : Arg) :
    Except PyErr (ChartLayer × Option Chart) := do
  let res ← labelsBuild layout G pos chart layer subset label font_size font_colour
  pure (res, chart.map (fun c => { c with layer := c.layer.set 1 res }))

/-- Embedding of the filtering step of `draw_networkx` (lines 525-528) as a
pure function: when any filtering is requested the graph is (deep-copied and)
stripped of its self-loop edges and/or of its isolated nodes, the isolates
being computed after the self-loop policy has been applied. -/
def applyFilters (show_orphans show_self_loops : Bool) (G : Graph) : Graph :=
  if show_self_loops ∧ show_orphans then G
  else
    let g1 := if ¬ show_self_loops then G.remove_edges_from G.selfloop_edges else G
    if ¬ show_orphans then g1.remove_nodes_from g1.isolates else g1

/-- The keyword parameters of `draw_networkx` (besides `G`, `pos`, `chart`). -/
structure DrawParams where
  node_subset : Arg
  edge_subset : Arg
  show_orphans : Bool
  show_self_loops : Bool
  node_size : Arg
  node_outline_width : Arg
  node_shape : Arg
  node_colour : Arg
  node_cmap : Arg
  node_alpha : Arg
  node_label : Arg
  node_font_size : Arg
  node_font_colour : Arg
  node_tooltip : Option (List String)
  node_legend : Bool
  edge_width : Arg
  edge_colour : Arg
  edge_cmap : Arg
  edge_alpha : Arg
  edge_tooltip : Option (List String)
  edge_legend : Bool
  loop_radius : ℚ
  loop_angle : ℚ
  loop_n_points : Nat
  curved_edges : Bool
  edge_control_points : Option (List (ℚ × ℚ))
  edge_interpolation : Arg
  arrow_width : Arg
  arrow_length : ℚ
  arrow_length_is_relative : Bool
  arrow_colour : Arg
  arrow_cmap : Arg
  arrow_alpha : Arg
  arrow_legend : Bool
  chart_width : Option ℚ
  chart_height : Option ℚ
deriving DecidableEq

/-- The default values of the keyword parameters of `draw_networkx`
(lines 418-426). -/
def defaultParams : DrawParams :=
  ⟨.pnone, .pnone, true, true,
   .pint 400, .pfloat 1, .pstr "circle", .pstr "teal", .pnone, .pfloat 1,
   .pnone, .pint 15, .pstr "black", none, false,
   .pint 1, .pstr "grey", .pnone, .pfloat 1, none, false,
   1/20, 90, 30,
   false, none, .pstr "basis",
   .pint 2, 1/10, true, .pstr "black", .pnone, .pfloat 1, false,
   some 500, some 300⟩

/-- Embedding of `draw_networkx` (lines 418-591): filter a copy of the graph,
obtain or compute positions (the external layout provider is `layout`), scale
coordinates, build the edge / arrow / node / label layers that apply, and
stack them into a sized composite; an empty result is a `ValueError`. -/
def draw_networkx (layout : Graph → Pos) (G : Graph) (pos : Option Pos)
    (chart : Option Chart) (p : DrawParams) : Except PyErr Chart := do
  let G1 := applyFilters p.show_orphans p.show_self_loops G
  let pos1 := match pos with
    | some l => if l.isEmpty then layout G1 else l
    | none => layout G1
  let (pos2, cw, ch) ← scale_positions pos1 p.chart_width p.chart_height
  let edgesPart ← if G1.edges.length ≠ 0 then do
      let (e, _) ← draw_networkx_edges layout (some G1) (some pos2) chart none
          p.edge_subset p.edge_width p.edge_colour p.edge_cmap p.edge_alpha
          p.edge_tooltip p.edge_legend p.loop_radius p.loop_angle p.loop_n_points
          p.curved_edges p.edge_control_points p.edge_interpolation
      if G1.directed then do
        let (a, _) ← draw_networkx_arrows layout (some G1) (some pos2) chart none
            p.edge_subset p.arrow_width p.arrow_length p.arrow_length_is_relative
            p.arrow_colour p.arrow_cmap p.arrow_alpha p.edge_tooltip p.arrow_legend
            p.curved_edges p.edge_control_points
        pure [e, a]
      else pure [e]
    else pure ([] : List ChartLayer)
  let nodesPart ← if G1.nodes.length ≠ 0 then do
      let (n, _) ← draw_networkx_nodes layout (some G1) (some pos2) chart none
          p.node_subset p.node_size p.node_outline_width p.node_shape
          p.node_colour p.node_cmap p.node_alpha p.node_tooltip p.node_legend
      if p.node_label.truthy then do
        let (lb, _) ← draw_networkx_labels layout (some G1) (some pos2) chart none
            p.node_subset p.node_label p.node_font_size p.node_font_colour
        pure [n, lb]
      else pure [n]
    else pure ([] : List ChartLayer)
  let viz := edgesPart ++ nodesPart
  if viz.isEmpty then throw (.valueError "G does not contain any nodes or edges.")
  else pure { layer := viz, width := some cw, height := some ch }

/-- A heap of graph objects, to make object identity and in-place mutation
explicit where the claims are about them. -/
abbrev Heap := List Graph

/-- In-place mutation of the graph object a reference points to. -/
def heapUpdate (h : Heap) (r : Nat) (f : Graph → Graph) : Heap :=
  h.set r (f (h.getD r ⟨false, [], []⟩))

/-- Embedding of the filtering step of `draw_networkx` (lines 525-528) with
explicit object identity: when any filtering is requested, `deepcopy`
allocates a fresh graph object (at the end of the heap) and the removals
mutate that fresh object in place; otherwise the caller's object itself is
used for drawing.  Returns the heap after the call and the reference to the
graph the drawing proceeds with. -/
def draw_networkx_filter_refs (h : Heap) (r : Nat)
    (show_orphans show_self_loops : Bool) : Heap × Nat :=
  if show_self_loops ∧ show_orphans then (h, r)
  else
    let g := h.getD r ⟨false, [], []⟩
    let h1 := h ++ [g]
    let r1 := h.length
    let h2 := if ¬ show_self_loops then
        heapUpdate h1 r1 (fun g0 => g0.remove_edges_from g0.selfloop_edges) else h1
    let h3 := if ¬ show_orphans then
        heapUpdate h2 r1 (fun g0 => g0.remove_nodes_from g0.isolates) else h2
    (h3, r1)

/-- Whether a call raised (any) Python exception. -/
def isErr {α : Type} : Except PyErr α → Bool
  | .error _ => true
  | .ok _ => false

/-- The encoding a drawing call bound to channel `k`, when it succeeded. -/
def encOf (x : Except PyErr (ChartLayer × Option Chart)) (k : String) : Option EncVal :=
  match x with
  | .ok (l, _) => getAttr l.encodings k
  | .error _ => none

/-- The constant mark attribute a drawing call set for `k`, when it succeeded. -/
def markOf (x : Except PyErr (ChartLayer × Option Chart)) (k : String) : Option MarkVal :=
  match x with
  | .ok (l, _) => getAttr l.markAttrs k
  | .error _ => none

/-- The rows of the record set a drawing call bound, when it succeeded. -/
def rowsOf (x : Except PyErr (ChartLayer × Option Chart)) : Option (List Row) :=
  match x with
  | .ok (l, _) => some l.data.rows
  | .error _ => none

/-- The number of layers of a composite drawing, when it succeeded. -/
def layerCountOf (x : Except PyErr Chart) : Option Nat :=
  match x with
  | .ok c => some c.layer.length
  | .error _ => none

/-- The per-layer row counts of a composite drawing, when it succeeded. -/
def rowCountsOf (x : Except PyErr Chart) : Option (List Nat) :=
  match x with
  | .ok c => some (c.layer.map (fun l => l.data.nrows))
  | .error _ => none

/-- The per-layer mark types of a composite drawing, when it succeeded. -/
def markTypesOf (x : Except PyErr Chart) : Option (List String) :=
  match x with
  | .ok c => some (c.layer.map (fun l => l.markType))
  | .error _ => none

/-- The directed 3-node path graph A→B→C of the end-to-end claim. -/
def pathABC : Graph := ⟨true, ["A", "B", "C"], [("A", "B"), ("B", "C")]⟩

/-- A concrete stand-in for the external layout provider. -/
def demoLayout : Graph → Pos := fun g => g.nodes.map (fun n => (n, 0, 0))

/-- C6: in every drawing function, a call with `G`, `chart` and `layer` all
`None` fails immediately with the `ValueError` of the source-selection
block, whatever the remaining arguments are. -/
theorem missing_source_valueerror
    (layout : Graph → Pos) (pos : Option Pos) (subset a1 a2 a3 a4 a5 a6 a7 : Arg)
    (tooltip : Option (List String)) (legend : Bool) (lr la q : ℚ) (lnp : Nat)
    (rel ce : Bool) (cps : Option (List (ℚ × ℚ))) :
    draw_networkx_edges layout none pos none none subset a1 a2 a3 a4 tooltip legend
        lr la lnp ce cps a5
      = .error (.valueError "one of G, chart or layer is required to draw.")
    ∧ draw_networkx_arrows layout none pos none none subset a1 q rel a2 a3 a4
        tooltip legend ce cps
      = .error (.valueError "one of G, chart or layer is required to draw.")
    ∧ draw_networkx_nodes layout none pos none none subset a1 a2 a3 a4 a5 a6
        tooltip legend
      = .error (.valueError "one of G, chart or layer is required to draw.")
    ∧ draw_networkx_labels layout none pos none none subset a5 a6 a7
      = .error (.valueError "one of G, chart or layer is required to draw.") := by
  refine ⟨rfl, rfl, rfl, rfl⟩

theorem ebind_ok {α β : Type} (a : α) (f : α → Except PyErr β) :
    (Except.ok a >>= f) = f a := rfl

theorem ebind_err {α β : Type} (e : PyErr) (f : α → Except PyErr β) :
    ((Except.error e : Except PyErr α) >>= f) = .error e := rfl

/-- C10 (counterexample): a call to `draw_networkx_labels` with the default
`label = None` and no data source raises the source-selection `ValueError`,
not a `TypeError`, so "every call in which the label argument is not a string
raises a TypeError" is false as stated. -/
theorem labels_no_source_not_typeerror_cex :
    draw_networkx_labels demoLayout none none none none .pnone .pnone (.pint 15) (.pstr "black")
      = .error (.valueError "one of G, chart or layer is required to draw.")
    ∧ ∀ m, (PyErr.valueError "one of G, chart or layer is required to draw.") ≠ .typeError m := by
  exact ⟨rfl, fun m h => PyErr.noConfusion h⟩

/-- C10 (amended): every call to `draw_networkx_labels` that gets past
data-source selection and subset filtering — in particular every call with a
data source and a valid subset — in which `label` is not a string (including
the default `label = None`) raises the `TypeError` of line 389 before any
chart is built; so the label parameter is effectively required whenever the
function can draw at all. -/
theorem labels_label_required (layout : Graph → Pos) (G : Option Graph)
    (pos : Option Pos) (chart : Option Chart) (layer : Option ChartLayer)
    (subset label fs fc : Arg) (df df1 : DFrame) (base : ChartLayer)
    (hsrc : nodesSource layout G pos chart layer = .ok (df, base))
    (hsub : subsetLocStep subset df = .ok df1)
    (hlab : label.isStr = false) :
    draw_networkx_labels layout G pos chart layer subset label fs fc
      = .error (.typeError "label must be a string.") := by
  cases label with
  | pstr s => simp [Arg.isStr] at hlab
  | pint n => simp [draw_networkx_labels, labelsBuild, hsrc, ebind_ok, ebind_err, hsub, labelStep]
  | pfloat q => simp [draw_networkx_labels, labelsBuild, hsrc, ebind_ok, ebind_err, hsub, labelStep]
  | pnone => simp [draw_networkx_labels, labelsBuild, hsrc, ebind_ok, ebind_err, hsub, labelStep]
  | plist l => simp [draw_networkx_labels, labelsBuild, hsrc, ebind_ok, ebind_err, hsub, labelStep]

/-- Witness for `labels_label_required` at a concrete single-node graph. -/
theorem labels_label_required_witness :
    draw_networkx_labels demoLayout (some ⟨false, ["A"], []⟩) none none none .pnone .pnone
        (.pint 15) (.pstr "black")
      = .error (.typeError "label must be a string.") :=
  labels_label_required demoLayout (some ⟨false, ["A"], []⟩) none none none .pnone .pnone
    (.pint 15) (.pstr "black")
    (to_pandas_nodes ⟨false, ["A"], []⟩ (demoLayout ⟨false, ["A"], []⟩))
    (to_pandas_nodes ⟨false, ["A"], []⟩ (demoLayout ⟨false, ["A"], []⟩))
    (ChartLayer.ofData (to_pandas_nodes ⟨false, ["A"], []⟩ (demoLayout ⟨false, ["A"], []⟩)))
    rfl rfl rfl

/-- C5: whenever the graph is empty (no nodes and no edges) after the
orphan/self-loop filtering step, `draw_networkx` raises an error and returns
no chart — either the coordinate unpacking fails (empty position mapping) or
the final layering check raises `ValueError`. -/
theorem draw_networkx_empty_after_filter_errors (layout : Graph → Pos) (G : Graph)
    (pos : Option Pos) (chart : Option Chart) (p : DrawParams)
    (hn : (applyFilters p.show_orphans p.show_self_loops G).nodes = [])
    (he : (applyFilters p.show_orphans p.show_self_loops G).edges = []) :
    isErr (draw_networkx layout G pos chart p) = true := by
  cases pos with
  | none =>
      cases hsc : scale_positions (layout (applyFilters p.show_orphans p.show_self_loops G))
          p.chart_width p.chart_height with
      | error e => simp [draw_networkx, hsc, ebind_err, isErr]
      | ok v => simp [draw_networkx, hsc, ebind_ok, ebind_err, he, hn, isErr]
  | some l =>
      cases hl : l.isEmpty with
      | true =>
          cases hsc : scale_positions (layout (applyFilters p.show_orphans p.show_self_loops G))
              p.chart_width p.chart_height with
          | error e => simp [draw_networkx, hl, hsc, ebind_err, isErr]
          | ok v => simp [draw_networkx, hl, hsc, ebind_ok, ebind_err, he, hn, isErr]
      | false =>
          cases hsc : scale_positions l p.chart_width p.chart_height with
          | error e => simp [draw_networkx, hl, hsc, ebind_err, isErr]
          | ok v => simp [draw_networkx, hl, hsc, ebind_ok, ebind_err, he, hn, isErr]

/-- Witness for `draw_networkx_empty_after_filter_errors` on the empty graph. -/
theorem draw_networkx_empty_after_filter_errors_witness :
    isErr (draw_networkx demoLayout ⟨false, [], []⟩ none none defaultParams) = true :=
  draw_networkx_empty_after_filter_errors demoLayout ⟨false, [], []⟩ none none defaultParams
    rfl rfl

/-- The coordinate-scaling step always succeeds with the default chart sizes
(500 × 300) on a nonempty position mapping, passing the sizes through. -/
theorem scale_positions_ok_53 (pos : Pos) (h : pos ≠ []) :
    ∃ pos2, scale_positions pos (some 500) (some 300) = .ok (pos2, 500, 300) := by
  simp [scale_positions, h, show ((300 : ℚ) ≤ 500) from by norm_num]
  exact ⟨_, rfl⟩

/-- C2 (counterexample): drawing the directed path A→B→C with default
parameters yields a composite with 3 layers, not the 4 the claim states. -/
theorem path3_not_four_layers_cex :
    layerCountOf (draw_networkx demoLayout pathABC none none defaultParams) ≠ some 4
    ∧ layerCountOf (draw_networkx demoLayout pathABC none none defaultParams) = some 3 := by
  refine ⟨?_, ?_⟩ <;> decide

set_option maxHeartbeats 1000000 in
/-- C2 (amended): for the directed 3-node path graph A→B→C under default
parameters (any layout outcome), the composite has exactly 3 ordered layers —
edges, arrows, nodes, and no label layer since none was requested — whose
record sets have 4 edge rows (2 edges × 2 points), 4 arrow rows
(2 arrows × 2 points) and 3 node rows. -/
theorem path3_layers_and_row_counts (layout : Graph → Pos) (h : layout pathABC ≠ []) :
    layerCountOf (draw_networkx layout pathABC none none defaultParams) = some 3
    ∧ rowCountsOf (draw_networkx layout pathABC none none defaultParams) = some [4, 4, 3]
    ∧ markTypesOf (draw_networkx layout pathABC none none defaultParams)
        = some ["line", "line", "point"] := by
  obtain ⟨pos2, hs⟩ := scale_positions_ok_53 (layout pathABC) h
  have hs2 : scale_positions (layout ⟨true, ["A", "B", "C"], [("A", "B"), ("B", "C")]⟩)
      (some 500) (some 300) = Except.ok (pos2, 500, 300) := hs
  refine ⟨?_, ?_, ?_⟩ <;>
    simp [draw_networkx, defaultParams, applyFilters, pathABC, hs2, ebind_ok, ebind_err,
      layerCountOf, rowCountsOf, markTypesOf, Arg.truthy, draw_networkx_edges,
      draw_networkx_arrows, draw_networkx_nodes, edgesBuild, arrowsBuild, nodesBuild,
      edgesSource, arrowsSource, nodesSource, to_pandas_edges, to_pandas_edge_arrows,
      to_pandas_nodes, subsetPairStep, subsetLocStep, widthStepEdges, widthStepArrows,
      colourStepEdges, alphaStep, interpStepEdges, tooltipStep, sizeStepNodes,
      outlineStepNodes, shapeStepNodes, colourStepNodes, cmapStepNodes, ChartLayer.ofData,
      DFrame.nrows, pairName, setAttr]

/-- Witness for `path3_layers_and_row_counts` at a concrete layout. -/
theorem path3_layers_and_row_counts_witness :
    demoLayout pathABC ≠ []
    ∧ (layerCountOf (draw_networkx demoLayout pathABC none none defaultParams) = some 3
       ∧ rowCountsOf (draw_networkx demoLayout pathABC none none defaultParams) = some [4, 4, 3]
       ∧ markTypesOf (draw_networkx demoLayout pathABC none none defaultParams)
           = some ["line", "line", "point"]) :=
  ⟨by decide, path3_layers_and_row_counts demoLayout (by decide)⟩

/-- Removing the isolates of `g` keeps exactly the nodes with an incident
edge: the membership test against the `isolates` list coincides, on nodes of
`g`, with the degree test itself. -/
theorem remove_isolates_nodes (g : Graph) :
    (g.remove_nodes_from g.isolates).nodes = g.nodes.filter (fun n => !g.isIsolate n) := by
  show g.nodes.filter (fun n => ¬ g.isolates.contains n) = _
  apply List.filter_congr
  intro n hn
  by_cases hi : g.isIsolate n
  · simp [Graph.isolates, List.mem_filter, hn, hi]
  · simp [Graph.isolates, List.mem_filter, hn, hi]

/-- The self-loop policy of `draw_networkx` line 527: the graph whose isolates
are subsequently dropped is the one with self-loop edges already removed when
`show_self_loops` is false. -/
def loopPolicyApplied (ssl : Bool) (g : Graph) : Graph :=
  if ssl then g else g.remove_edges_from g.selfloop_edges

/-- C3: for every heap of graph objects, valid reference and flag combination,
the filtering step of `draw_networkx` (lines 525-528, the only statements that
touch the graph) leaves the caller's graph object untouched — removals apply
only to the freshly allocated deep copy — the graph actually drawn is the
purely filtered graph, and with `show_orphans = False` the node record set
contains exactly the nodes that still have an incident edge after the
self-loop policy is applied. -/
theorem draw_networkx_no_mutation_orphan_filter (h : Heap) (r : Nat) (so ssl : Bool)
    (pos : Pos) (hr : r < h.length) :
    ((draw_networkx_filter_refs h r so ssl).1.getD r ⟨false, [], []⟩
        = h.getD r ⟨false, [], []⟩)
    ∧ ((draw_networkx_filter_refs h r so ssl).1.getD (draw_networkx_filter_refs h r so ssl).2
          ⟨false, [], []⟩
        = applyFilters so ssl (h.getD r ⟨false, [], []⟩))
    ∧ (so = false →
        (to_pandas_nodes
            ((draw_networkx_filter_refs h r so ssl).1.getD (draw_networkx_filter_refs h r so ssl).2
              ⟨false, [], []⟩) pos).rows.map Row.label
          = (loopPolicyApplied ssl (h.getD r ⟨false, [], []⟩)).nodes.filter
              (fun n => !(loopPolicyApplied ssl (h.getD r ⟨false, [], []⟩)).isIsolate n)) := by
  have hne : h.length ≠ r := by omega
  cases so <;> cases ssl <;>
    refine ⟨?_, ?_, ?_⟩ <;>
      simp [draw_networkx_filter_refs, heapUpdate, applyFilters, loopPolicyApplied,
        to_pandas_nodes, remove_isolates_nodes, List.map_map, Function.comp_def, List.getD,
        List.getElem?_append, List.getElem?_concat_length, List.getElem?_set_ne hne,
        List.getElem?_set_self, hr]

/-- A one-graph heap holding a node with a self-loop and an edge, plus an
orphan candidate. -/
def loopyHeap : Heap := [⟨false, ["A", "B"], [("A", "A"), ("A", "B")]⟩]

/-- Witness for `draw_networkx_no_mutation_orphan_filter` on `loopyHeap` with
both filters requested. -/
theorem draw_networkx_no_mutation_orphan_filter_witness :
    (0 : Nat) < loopyHeap.length
    ∧ (((draw_networkx_filter_refs loopyHeap 0 false false).1.getD 0 ⟨false, [], []⟩
          = loopyHeap.getD 0 ⟨false, [], []⟩)
       ∧ ((draw_networkx_filter_refs loopyHeap 0 false false).1.getD
              (draw_networkx_filter_refs loopyHeap 0 false false).2 ⟨false, [], []⟩
          = applyFilters false false (loopyHeap.getD 0 ⟨false, [], []⟩))
       ∧ (false = false →
          (to_pandas_nodes
              ((draw_networkx_filter_refs loopyHeap 0 false false).1.getD
                (draw_networkx_filter_refs loopyHeap 0 false false).2 ⟨false, [], []⟩)
              []).rows.map Row.label
            = (loopPolicyApplied false (loopyHeap.getD 0 ⟨false, [], []⟩)).nodes.filter
                (fun n => !(loopPolicyApplied false (loopyHeap.getD 0 ⟨false, [], []⟩)).isIsolate n))) :=
  ⟨by decide, draw_networkx_no_mutation_orphan_filter loopyHeap 0 false false [] (by decide)⟩


/-- A record set with a non-numeric (object-dtype) column `val`, as produced
for a node attribute holding strings. -/
def dfObj : DFrame :=
  ⟨["val", "x", "y"], [("val", "O"), ("x", "float64"), ("y", "float64")], [⟨"A", ""⟩]⟩

/-- C4 (counterexample): `draw_networkx_nodes` accepts a colormap together
with a colour argument referencing a non-numeric (object-dtype) column
without raising — it simply builds the colormap-scaled fill encoding — so
"in every drawing function ... passing a colormap name together with a colour
argument that references a column of non-numeric values raises an error" is
false for the node drawer. -/
theorem nodes_cmap_nonnumeric_no_error_cex :
    dfObj.dtypeOf "val" = "O"
    ∧ isErr (draw_networkx_nodes demoLayout none none none (some (ChartLayer.ofData dfObj))
        .pnone (.pint 400) (.pfloat 1) (.pstr "circle") (.pstr "val") (.pstr "viridis")
        (.pfloat 1) none false) = false
    ∧ encOf (draw_networkx_nodes demoLayout none none none (some (ChartLayer.ofData dfObj))
        .pnone (.pint 400) (.pfloat 1) (.pstr "circle") (.pstr "val") (.pstr "viridis")
        (.pfloat 1) none false) "fill" = some (.colorSchemeNoLegend "val" "viridis") := by
  refine ⟨?_, ?_, ?_⟩ <;> decide

set_option maxHeartbeats 1600000 in
/-- C4 (amended): the edge and arrow drawers validate the colormap mode — a
colormap name with a colour column of object dtype raises a `TypeError`, and
with a numeric column the call succeeds and binds the colormap-scaled colour
encoding — but `draw_networkx_nodes` performs no such check: whenever `cmap`
is a string it binds the colormap-scaled fill encoding, whatever the dtype of
the colour column (and even if the colour names no column at all). -/
theorem cmap_validation (lay : Graph → Pos) (df : DFrame) (s m : String)
    (hs : s ∈ df.columns) :
    (df.dtypeOf s = "O" →
       isErr (draw_networkx_edges lay none none none (some (ChartLayer.ofData df)) .pnone
           (.pint 1) (.pstr s) (.pstr m) (.pfloat 1) none false 0 0 30 false none (.pstr "basis")) = true
       ∧ isErr (draw_networkx_arrows lay none none none (some (ChartLayer.ofData df)) .pnone
           (.pint 1) 0 true (.pstr s) (.pstr m) (.pfloat 1) none false false none) = true)
    ∧ (df.dtypeOf s ≠ "O" →
       encOf (draw_networkx_edges lay none none none (some (ChartLayer.ofData df)) .pnone
           (.pint 1) (.pstr s) (.pstr m) (.pfloat 1) none false 0 0 30 false none (.pstr "basis")) "color"
         = some (.colorSchemeEnc s m false)
       ∧ encOf (draw_networkx_arrows lay none none none (some (ChartLayer.ofData df)) .pnone
           (.pint 1) 0 true (.pstr s) (.pstr m) (.pfloat 1) none false false none) "color"
         = some (.colorSchemeEnc s m false))
    ∧ encOf (draw_networkx_nodes lay none none none (some (ChartLayer.ofData df)) .pnone
           (.pint 400) (.pfloat 1) (.pstr "circle") (.pstr s) (.pstr m) (.pfloat 1) none false) "fill"
         = some (.colorSchemeNoLegend s m) := by
  refine ⟨fun hO => ⟨?_, ?_⟩, fun hO => ⟨?_, ?_⟩, ?_⟩
  · simp [draw_networkx_edges, edgesBuild, edgesSource, subsetPairStep, widthStepEdges,
      colourStepEdges, hs, hO, alphaStep, interpStepEdges, tooltipStep, isErr, encOf,
      getAttr, setAttr, ChartLayer.ofData, ebind_ok, ebind_err]
  · simp [draw_networkx_arrows, arrowsBuild, arrowsSource, subsetPairStep, widthStepArrows,
      colourStepEdges, hs, hO, alphaStep, tooltipStep, isErr, encOf,
      getAttr, setAttr, ChartLayer.ofData, ebind_ok, ebind_err]
  · simp [draw_networkx_edges, edgesBuild, edgesSource, subsetPairStep, widthStepEdges,
      colourStepEdges, hs, hO, alphaStep, interpStepEdges, tooltipStep, isErr, encOf,
      getAttr, setAttr, ChartLayer.ofData, ebind_ok, ebind_err]
  · simp [draw_networkx_arrows, arrowsBuild, arrowsSource, subsetPairStep, widthStepArrows,
      colourStepEdges, hs, hO, alphaStep, tooltipStep, isErr, encOf,
      getAttr, setAttr, ChartLayer.ofData, ebind_ok, ebind_err]
  · by_cases hc : "circle" ∈ df.columns <;>
      simp [draw_networkx_nodes, nodesBuild, nodesSource, subsetLocStep, sizeStepNodes,
        outlineStepNodes, shapeStepNodes, colourStepNodes, cmapStepNodes, hs, hc,
        alphaStep, tooltipStep, encOf, getAttr, setAttr, ChartLayer.ofData, ebind_ok, ebind_err]

/-- Witness for `cmap_validation` at the concrete object-dtype record set. -/
theorem cmap_validation_witness :
    (dfObj.dtypeOf "val" = "O" →
       isErr (draw_networkx_edges demoLayout none none none (some (ChartLayer.ofData dfObj)) .pnone
           (.pint 1) (.pstr "val") (.pstr "viridis") (.pfloat 1) none false 0 0 30 false none (.pstr "basis")) = true
       ∧ isErr (draw_networkx_arrows demoLayout none none none (some (ChartLayer.ofData dfObj)) .pnone
           (.pint 1) 0 true (.pstr "val") (.pstr "viridis") (.pfloat 1) none false false none) = true)
    ∧ (dfObj.dtypeOf "val" ≠ "O" →
       encOf (draw_networkx_edges demoLayout none none none (some (ChartLayer.ofData dfObj)) .pnone
           (.pint 1) (.pstr "val") (.pstr "viridis") (.pfloat 1) none false 0 0 30 false none (.pstr "basis")) "color"
         = some (.colorSchemeEnc "val" "viridis" false)
       ∧ encOf (draw_networkx_arrows demoLayout none none none (some (ChartLayer.ofData dfObj)) .pnone
           (.pint 1) 0 true (.pstr "val") (.pstr "viridis") (.pfloat 1) none false false none) "color"
         = some (.colorSchemeEnc "val" "viridis" false))
    ∧ encOf (draw_networkx_nodes demoLayout none none none (some (ChartLayer.ofData dfObj)) .pnone
           (.pint 400) (.pfloat 1) (.pstr "circle") (.pstr "val") (.pstr "viridis") (.pfloat 1) none false) "fill"
         = some (.colorSchemeNoLegend "val" "viridis") :=
  cmap_validation demoLayout dfObj "val" "viridis" (by decide)

/-- C7 (counterexample): in `draw_networkx_edges` a width string that matches
no column of the record set still becomes a data-driven `strokeWidth`
encoding, not a constant mark attribute — the numeric-style parameters never
test column membership — so "a literal string not matching a column name
becomes a fixed mark attribute" is false as stated. -/
theorem width_string_noncolumn_is_encoding_cex :
    "foo" ∉ dfObj.columns
    ∧ encOf (draw_networkx_edges demoLayout none none none (some (ChartLayer.ofData dfObj))
        .pnone (.pstr "foo") (.pstr "grey") .pnone (.pfloat 1) none false 0 0 30 false none
        (.pstr "basis")) "strokeWidth" = some (.sizeEnc "foo" false)
    ∧ markOf (draw_networkx_edges demoLayout none none none (some (ChartLayer.ofData dfObj))
        .pnone (.pstr "foo") (.pstr "grey") .pnone (.pfloat 1) none false 0 0 30 false none
        (.pstr "basis")) "strokeWidth" = none := by
  refine ⟨?_, ?_, ?_⟩ <;> decide

set_option maxHeartbeats 1600000 in
/-- Dispatch of the `draw_networkx_edges` styling parameters: an int width is
a constant mark attribute and a string width a data-driven `strokeWidth`
encoding with no column-membership test; a colour string is membership-tested
(`color` encoding exactly when it names a column, constant otherwise); a
numeric opacity is constant, a string opacity data-driven. -/
theorem edges_dispatch (lay : Graph → Pos) (df : DFrame) (n : Int) (s t : String)
    (hs : s ∈ df.columns) (ht : t ∉ df.columns) :
    (markOf (draw_networkx_edges lay none none none (some (ChartLayer.ofData df)) .pnone
        (.pint n) (.pstr s) .pnone (.pfloat 1) none false 0 0 30 false none (.pstr "basis"))
        "strokeWidth" = some (.mint n)
     ∧ encOf (draw_networkx_edges lay none none none (some (ChartLayer.ofData df)) .pnone
        (.pint n) (.pstr s) .pnone (.pfloat 1) none false 0 0 30 false none (.pstr "basis"))
        "strokeWidth" = none
     ∧ encOf (draw_networkx_edges lay none none none (some (ChartLayer.ofData df)) .pnone
        (.pint n) (.pstr s) .pnone (.pfloat 1) none false 0 0 30 false none (.pstr "basis"))
        "color" = some (.colorEnc s false)
     ∧ markOf (draw_networkx_edges lay none none none (some (ChartLayer.ofData df)) .pnone
        (.pint n) (.pstr s) .pnone (.pfloat 1) none false 0 0 30 false none (.pstr "basis"))
        "color" = none
     ∧ markOf (draw_networkx_edges lay none none none (some (ChartLayer.ofData df)) .pnone
        (.pint n) (.pstr s) .pnone (.pfloat 1) none false 0 0 30 false none (.pstr "basis"))
        "opacity" = some (.mfloat 1))
    ∧ (encOf (draw_networkx_edges lay none none none (some (ChartLayer.ofData df)) .pnone
        (.pstr t) (.pstr t) .pnone (.pstr t) none false 0 0 30 false none (.pstr "basis"))
        "strokeWidth" = some (.sizeEnc t false)
     ∧ markOf (draw_networkx_edges lay none none none (some (ChartLayer.ofData df)) .pnone
        (.pstr t) (.pstr t) .pnone (.pstr t) none false 0 0 30 false none (.pstr "basis"))
        "strokeWidth" = none
     ∧ markOf (draw_networkx_edges lay none none none (some (ChartLayer.ofData df)) .pnone
        (.pstr t) (.pstr t) .pnone (.pstr t) none false 0 0 30 false none (.pstr "basis"))
        "color" = some (.mstr t)
     ∧ encOf (draw_networkx_edges lay none none none (some (ChartLayer.ofData df)) .pnone
        (.pstr t) (.pstr t) .pnone (.pstr t) none false 0 0 30 false none (.pstr "basis"))
        "color" = none
     ∧ encOf (draw_networkx_edges lay none none none (some (ChartLayer.ofData df)) .pnone
        (.pstr t) (.pstr t) .pnone (.pstr t) none false 0 0 30 false none (.pstr "basis"))
        "opacity" = some (.fieldEnc t)) := by
  refine ⟨⟨?_, ?_, ?_, ?_, ?_⟩, ⟨?_, ?_, ?_, ?_, ?_⟩⟩ <;>
    simp [draw_networkx_edges, edgesBuild, edgesSource, subsetPairStep, widthStepEdges,
      colourStepEdges, hs, ht, alphaStep, interpStepEdges, tooltipStep, encOf, markOf,
      getAttr, setAttr, ChartLayer.ofData, ebind_ok, ebind_err]

set_option maxHeartbeats 1600000 in
/-- Dispatch of the `draw_networkx_arrows` styling parameters: a string width
becomes a data-driven `size` encoding with no membership test, an int width a
constant `strokeWidth`; colour is membership-tested; opacity as for edges. -/
theorem arrows_dispatch (lay : Graph → Pos) (df : DFrame) (n : Int) (s t : String)
    (hs : s ∈ df.columns) (ht : t ∉ df.columns) :
    (encOf (draw_networkx_arrows lay none none none (some (ChartLayer.ofData df)) .pnone
        (.pstr t) 0 true (.pstr s) .pnone (.pfloat 1) none false false none)
        "size" = some (.sizeEnc t false)
     ∧ markOf (draw_networkx_arrows lay none none none (some (ChartLayer.ofData df)) .pnone
        (.pstr t) 0 true (.pstr s) .pnone (.pfloat 1) none false false none)
        "strokeWidth" = none
     ∧ encOf (draw_networkx_arrows lay none none none (some (ChartLayer.ofData df)) .pnone
        (.pstr t) 0 true (.pstr s) .pnone (.pfloat 1) none false false none)
        "color" = some (.colorEnc s false))
    ∧ (markOf (draw_networkx_arrows lay none none none (some (ChartLayer.ofData df)) .pnone
        (.pint n) 0 true (.pstr t) .pnone (.pstr t) none false false none)
        "strokeWidth" = some (.mint n)
     ∧ markOf (draw_networkx_arrows lay none none none (some (ChartLayer.ofData df)) .pnone
        (.pint n) 0 true (.pstr t) .pnone (.pstr t) none false false none)
        "color" = some (.mstr t)
     ∧ encOf (draw_networkx_arrows lay none none none (some (ChartLayer.ofData df)) .pnone
        (.pint n) 0 true (.pstr t) .pnone (.pstr t) none false false none)
        "opacity" = some (.fieldEnc t)) := by
  refine ⟨⟨?_, ?_, ?_⟩, ⟨?_, ?_, ?_⟩⟩ <;>
    simp [draw_networkx_arrows, arrowsBuild, arrowsSource, subsetPairStep, widthStepArrows,
      colourStepEdges, hs, ht, alphaStep, tooltipStep, encOf, markOf,
      getAttr, setAttr, ChartLayer.ofData, ebind_ok, ebind_err]

set_option maxHeartbeats 1600000 in
/-- Dispatch of the `draw_networkx_nodes` styling parameters: size and outline
width treat any string as a data-driven encoding (no membership test) and
numbers as constants; shape and fill colour are membership-tested; opacity as
for edges. -/
theorem nodes_dispatch (lay : Graph → Pos) (df : DFrame) (n : Int) (s t : String)
    (hs : s ∈ df.columns) (ht : t ∉ df.columns) :
    (encOf (draw_networkx_nodes lay none none none (some (ChartLayer.ofData df)) .pnone
        (.pstr t) (.pfloat 1) (.pstr s) (.pstr t) .pnone (.pfloat 1) none false) "size"
          = some (.sizeEnc t false)
     ∧ encOf (draw_networkx_nodes lay none none none (some (ChartLayer.ofData df)) .pnone
        (.pstr t) (.pfloat 1) (.pstr s) (.pstr t) .pnone (.pfloat 1) none false) "shape"
          = some (.shapeEnc s false)
     ∧ markOf (draw_networkx_nodes lay none none none (some (ChartLayer.ofData df)) .pnone
        (.pstr t) (.pfloat 1) (.pstr s) (.pstr t) .pnone (.pfloat 1) none false) "fill"
          = some (.mstr t)
     ∧ markOf (draw_networkx_nodes lay none none none (some (ChartLayer.ofData df)) .pnone
        (.pstr t) (.pfloat 1) (.pstr s) (.pstr t) .pnone (.pfloat 1) none false) "strokeWidth"
          = some (.mfloat 1)
     ∧ markOf (draw_networkx_nodes lay none none none (some (ChartLayer.ofData df)) .pnone
        (.pstr t) (.pfloat 1) (.pstr s) (.pstr t) .pnone (.pfloat 1) none false) "opacity"
          = some (.mfloat 1))
    ∧ (markOf (draw_networkx_nodes lay none none none (some (ChartLayer.ofData df)) .pnone
        (.pint n) (.pstr t) (.pstr t) (.pstr s) .pnone (.pstr t) none false) "size"
          = some (.mint n)
     ∧ encOf (draw_networkx_nodes lay none none none (some (ChartLayer.ofData df)) .pnone
        (.pint n) (.pstr t) (.pstr t) (.pstr s) .pnone (.pstr t) none false) "strokeWidth"
          = some (.sizeEnc t false)
     ∧ markOf (draw_networkx_nodes lay none none none (some (ChartLayer.ofData df)) .pnone
        (.pint n) (.pstr t) (.pstr t) (.pstr s) .pnone (.pstr t) none false) "shape"
          = some (.mstr t)
     ∧ encOf (draw_networkx_nodes lay none none none (some (ChartLayer.ofData df)) .pnone
        (.pint n) (.pstr t) (.pstr t) (.pstr s) .pnone (.pstr t) none false) "fill"
          = some (.fieldEnc s)
     ∧ encOf (draw_networkx_nodes lay none none none (some (ChartLayer.ofData df)) .pnone
        (.pint n) (.pstr t) (.pstr t) (.pstr s) .pnone (.pstr t) none false) "opacity"
          = some (.fieldEnc t)) := by
  refine ⟨⟨?_, ?_, ?_, ?_, ?_⟩, ⟨?_, ?_, ?_, ?_, ?_⟩⟩ <;>
    simp [draw_networkx_nodes, nodesBuild, nodesSource, subsetLocStep, sizeStepNodes,
      outlineStepNodes, shapeStepNodes, colourStepNodes, cmapStepNodes, hs, ht,
      alphaStep, tooltipStep, encOf, markOf, getAttr, setAttr, ChartLayer.ofData,
      ebind_ok, ebind_err]

set_option maxHeartbeats 1600000 in
/-- Dispatch of the `draw_networkx_labels` styling parameters: label text and
font colour are membership-tested; font size treats any string as a
data-driven encoding and an int as a constant. -/
theorem labels_dispatch (lay : Graph → Pos) (df : DFrame) (s t : String)
    (hs : s ∈ df.columns) (ht : t ∉ df.columns) :
    (encOf (draw_networkx_labels lay none none none (some (ChartLayer.ofData df)) .pnone
        (.pstr s) (.pint 15) (.pstr t)) "text" = some (.fieldEnc s)
     ∧ markOf (draw_networkx_labels lay none none none (some (ChartLayer.ofData df)) .pnone
        (.pstr s) (.pint 15) (.pstr t)) "size" = some (.mint 15)
     ∧ markOf (draw_networkx_labels lay none none none (some (ChartLayer.ofData df)) .pnone
        (.pstr s) (.pint 15) (.pstr t)) "fill" = some (.mstr t))
    ∧ (markOf (draw_networkx_labels lay none none none (some (ChartLayer.ofData df)) .pnone
        (.pstr t) (.pstr t) (.pstr s)) "text" = some (.mstr t)
     ∧ encOf (draw_networkx_labels lay none none none (some (ChartLayer.ofData df)) .pnone
        (.pstr t) (.pstr t) (.pstr s)) "size" = some (.sizeEnc t false)
     ∧ encOf (draw_networkx_labels lay none none none (some (ChartLayer.ofData df)) .pnone
        (.pstr t) (.pstr t) (.pstr s)) "fill" = some (.fieldEnc s)) := by
  refine ⟨⟨?_, ?_, ?_⟩, ⟨?_, ?_, ?_⟩⟩ <;>
    simp [draw_networkx_labels, labelsBuild, nodesSource, subsetLocStep, labelStep,
      fontSizeStep, fontColourStep, hs, ht, encOf, markOf, getAttr, setAttr,
      ChartLayer.ofData, ebind_ok, ebind_err]

/-- C7 (amended): each styling parameter is resolved independently and mixing
constant with data-driven parameters in one call works, but the
constant/column test differs by parameter kind: the colour-like parameters
(edge colour, arrow colour, node shape, node fill colour, label text, font
colour) make a string data-driven exactly when it names a column of the
record set and a constant otherwise, while the numeric-style parameters (edge
width, arrow width, node size, node outline width, opacity, font size) make a
number constant and ANY string data-driven, with no column-membership test.
Stated for a column name `s`, a non-column string `t` and an int `n`, across
all four drawing functions. -/
theorem style_dispatch (lay : Graph → Pos) (df : DFrame) (n : Int) (s t : String)
    (hs : s ∈ df.columns) (ht : t ∉ df.columns) :
    ((markOf (draw_networkx_edges lay none none none (some (ChartLayer.ofData df)) .pnone
        (.pint n) (.pstr s) .pnone (.pfloat 1) none false 0 0 30 false none (.pstr "basis"))
        "strokeWidth" = some (.mint n)
     ∧ encOf (draw_networkx_edges lay none none none (some (ChartLayer.ofData df)) .pnone
        (.pint n) (.pstr s) .pnone (.pfloat 1) none false 0 0 30 false none (.pstr "basis"))
        "strokeWidth" = none
     ∧ encOf (draw_networkx_edges lay none none none (some (ChartLayer.ofData df)) .pnone
        (.pint n) (.pstr s) .pnone (.pfloat 1) none false 0 0 30 false none (.pstr "basis"))
        "color" = some (.colorEnc s false)
     ∧ markOf (draw_networkx_edges lay none none none (some (ChartLayer.ofData df)) .pnone
        (.pint n) (.pstr s) .pnone (.pfloat 1) none false 0 0 30 false none (.pstr "basis"))
        "color" = none
     ∧ markOf (draw_networkx_edges lay none none none (some (ChartLayer.ofData df)) .pnone
        (.pint n) (.pstr s) .pnone (.pfloat 1) none false 0 0 30 false none (.pstr "basis"))
        "opacity" = some (.mfloat 1))
    ∧ (encOf (draw_networkx_edges lay none none none (some (ChartLayer.ofData df)) .pnone
        (.pstr t) (.pstr t) .pnone (.pstr t) none false 0 0 30 false none (.pstr "basis"))
        "strokeWidth" = some (.sizeEnc t false)
     ∧ markOf (draw_networkx_edges lay none none none (some (ChartLayer.ofData df)) .pnone
        (.pstr t) (.pstr t) .pnone (.pstr t) none false 0 0 30 false none (.pstr "basis"))
        "strokeWidth" = none
     ∧ markOf (draw_networkx_edges lay none none none (some (ChartLayer.ofData df)) .pnone
        (.pstr t) (.pstr t) .pnone (.pstr t) none false 0 0 30 false none (.pstr "basis"))
        "color" = some (.mstr t)
     ∧ encOf (draw_networkx_edges lay none none none (some (ChartLayer.ofData df)) .pnone
        (.pstr t) (.pstr t) .pnone (.pstr t) none false 0 0 30 false none (.pstr "basis"))
        "color" = none
     ∧ encOf (draw_networkx_edges lay none none none (some (ChartLayer.ofData df)) .pnone
        (.pstr t) (.pstr t) .pnone (.pstr t) none false 0 0 30 false none (.pstr "basis"))
        "opacity" = some (.fieldEnc t)))
    ∧ ((encOf (draw_networkx_arrows lay none none none (some (ChartLayer.ofData df)) .pnone
        (.pstr t) 0 true (.pstr s) .pnone (.pfloat 1) none false false none)
        "size" = some (.sizeEnc t false)
     ∧ markOf (draw_networkx_arrows lay none none none (some (ChartLayer.ofData df)) .pnone
        (.pstr t) 0 true (.pstr s) .pnone (.pfloat 1) none false false none)
        "strokeWidth" = none
     ∧ encOf (draw_networkx_arrows lay none none none (some (ChartLayer.ofData df)) .pnone
        (.pstr t) 0 true (.pstr s) .pnone (.pfloat 1) none false false none)
        "color" = some (.colorEnc s false))
    ∧ (markOf (draw_networkx_arrows lay none none none (some (ChartLayer.ofData df)) .pnone
        (.pint n) 0 true (.pstr t) .pnone (.pstr t) none false false none)
        "strokeWidth" = some (.mint n)
     ∧ markOf (draw_networkx_arrows lay none none none (some (ChartLayer.ofData df)) .pnone
        (.pint n) 0 true (.pstr t) .pnone (.pstr t) none false false none)
        "color" = some (.mstr t)
     ∧ encOf (draw_networkx_arrows lay none none none (some (ChartLayer.ofData df)) .pnone
        (.pint n) 0 true (.pstr t) .pnone (.pstr t) none false false none)
        "opacity" = some (.fieldEnc t)))
    ∧ ((encOf (draw_networkx_nodes lay none none none (some (ChartLayer.ofData df)) .pnone
        (.pstr t) (.pfloat 1) (.pstr s) (.pstr t) .pnone (.pfloat 1) none false) "size"
          = some (.sizeEnc t false)
     ∧ encOf (draw_networkx_nodes lay none none none (some (ChartLayer.ofData df)) .pnone
        (.pstr t) (.pfloat 1) (.pstr s) (.pstr t) .pnone (.pfloat 1) none false) "shape"
          = some (.shapeEnc s false)
     ∧ markOf (draw_networkx_nodes lay none none none (some (ChartLayer.ofData df)) .pnone
        (.pstr t) (.pfloat 1) (.pstr s) (.pstr t) .pnone (.pfloat 1) none false) "fill"
          = some (.mstr t)
     ∧ markOf (draw_networkx_nodes lay none none none (some (ChartLayer.ofData df)) .pnone
        (.pstr t) (.pfloat 1) (.pstr s) (.pstr t) .pnone (.pfloat 1) none false) "strokeWidth"
          = some (.mfloat 1)
     ∧ markOf (draw_networkx_nodes lay none none none (some (ChartLayer.ofData df)) .pnone
        (.pstr t) (.pfloat 1) (.pstr s) (.pstr t) .pnone (.pfloat 1) none false) "opacity"
          = some (.mfloat 1))
    ∧ (markOf (draw_networkx_nodes lay none none none (some (ChartLayer.ofData df)) .pnone
        (.pint n) (.pstr t) (.pstr t) (.pstr s) .pnone (.pstr t) none false) "size"
          = some (.mint n)
     ∧ encOf (draw_networkx_nodes lay none none none (some (ChartLayer.ofData df)) .pnone
        (.pint n) (.pstr t) (.pstr t) (.pstr s) .pnone (.pstr t) none false) "strokeWidth"
          = some (.sizeEnc t false)
     ∧ markOf (draw_networkx_nodes lay none none none (some (ChartLayer.ofData df)) .pnone
        (.pint n) (.pstr t) (.pstr t) (.pstr s) .pnone (.pstr t) none false) "shape"
          = some (.mstr t)
     ∧ encOf (draw_networkx_nodes lay none none none (some (ChartLayer.ofData df)) .pnone
        (.pint n) (.pstr t) (.pstr t) (.pstr s) .pnone (.pstr t) none false) "fill"
          = some (.fieldEnc s)
     ∧ encOf (draw_networkx_nodes lay none none none (some (ChartLayer.ofData df)) .pnone
        (.pint n) (.pstr t) (.pstr t) (.pstr s) .pnone (.pstr t) none false) "opacity"
          = some (.fieldEnc t)))
    ∧ ((encOf (draw_networkx_labels lay none none none (some (ChartLayer.ofData df)) .pnone
        (.pstr s) (.pint 15) (.pstr t)) "text" = some (.fieldEnc s)
     ∧ markOf (draw_networkx_labels lay none none none (some (ChartLayer.ofData df)) .pnone
        (.pstr s) (.pint 15) (.pstr t)) "size" = some (.mint 15)
     ∧ markOf (draw_networkx_labels lay none none none (some (ChartLayer.ofData df)) .pnone
        (.pstr s) (.pint 15) (.pstr t)) "fill" = some (.mstr t))
    ∧ (markOf (draw_networkx_labels lay none none none (some (ChartLayer.ofData df)) .pnone
        (.pstr t) (.pstr t) (.pstr s)) "text" = some (.mstr t)
     ∧ encOf (draw_networkx_labels lay none none none (some (ChartLayer.ofData df)) .pnone
        (.pstr t) (.pstr t) (.pstr s)) "size" = some (.sizeEnc t false)
     ∧ encOf (draw_networkx_labels lay none none none (some (ChartLayer.ofData df)) .pnone
        (.pstr t) (.pstr t) (.pstr s)) "fill" = some (.fieldEnc s))) :=
  ⟨edges_dispatch lay df n s t hs ht, arrows_dispatch lay df n s t hs ht,
   nodes_dispatch lay df n s t hs ht, labels_dispatch lay df s t hs ht⟩

/-- Witness for `style_dispatch` at the concrete record set `dfObj`. -/
theorem style_dispatch_witness :
    markOf (draw_networkx_edges demoLayout none none none (some (ChartLayer.ofData dfObj)) .pnone
        (.pint 7) (.pstr "val") .pnone (.pfloat 1) none false 0 0 30 false none (.pstr "basis"))
        "strokeWidth" = some (.mint 7) :=
  (style_dispatch demoLayout dfObj 7 "val" "foo" (by decide) (by decide)).1.1.1

/-- C8 (counterexample): `draw_networkx_nodes` raises a `KeyError` when the
subset list contains an identifier absent from the node record set — pandas
label-based `.loc[list]` selection rejects missing labels — so "every drawing
function ... silently yields an empty match rather than raising an error" is
false for the node (and label) drawers. -/
theorem nodes_subset_missing_label_errors_cex :
    draw_networkx_nodes demoLayout (some ⟨false, ["A"], []⟩) none none none (.plist ["Z"])
        (.pint 400) (.pfloat 1) (.pstr "circle") (.pstr "teal") .pnone (.pfloat 1) none false
      = .error (.keyError "some labels are not in the index") := by
  rfl

set_option maxHeartbeats 1600000 in
/-- C8 (amended): the edge and arrow drawers filter by a boolean `isin` mask
on the `pair` column, so unknown identifiers silently match nothing (the
result keeps exactly the rows whose pair is listed); the node and label
drawers instead select rows by index label, and any subset entry missing from
the record set's index raises a `KeyError`. -/
theorem subset_filter_semantics (lay : Graph → Pos) (df : DFrame) (sub : List String) :
    (rowsOf (draw_networkx_edges lay none none none (some (ChartLayer.ofData df)) (.plist sub)
        (.pint 1) (.pstr "grey") .pnone (.pfloat 1) none false 0 0 30 false none (.pstr "basis"))
      = some (df.rows.filter (fun r => sub.contains r.pair)))
    ∧ (rowsOf (draw_networkx_arrows lay none none none (some (ChartLayer.ofData df)) (.plist sub)
        (.pint 1) 0 true (.pstr "grey") .pnone (.pfloat 1) none false false none)
      = some (df.rows.filter (fun r => sub.contains r.pair)))
    ∧ (∀ x ∈ sub, (∀ r ∈ df.rows, r.label ≠ x) →
        isErr (draw_networkx_nodes lay none none none (some (ChartLayer.ofData df)) (.plist sub)
            (.pint 400) (.pfloat 1) (.pstr "circle") (.pstr "teal") .pnone (.pfloat 1) none false) = true
        ∧ isErr (draw_networkx_labels lay none none none (some (ChartLayer.ofData df)) (.plist sub)
            (.pstr "lbl") (.pint 15) (.pstr "black")) = true) := by
  refine ⟨?_, ?_, fun x hx hnone => ?_⟩
  · by_cases hg : "grey" ∈ df.columns <;>
      simp [draw_networkx_edges, edgesBuild, edgesSource, subsetPairStep, widthStepEdges,
        colourStepEdges, hg, alphaStep, interpStepEdges, tooltipStep, rowsOf,
        DFrame.isinPairFilter, ChartLayer.ofData, ebind_ok, ebind_err]
  · by_cases hg : "grey" ∈ df.columns <;>
      simp [draw_networkx_arrows, arrowsBuild, arrowsSource, subsetPairStep, widthStepArrows,
        colourStepEdges, hg, alphaStep, tooltipStep, rowsOf,
        DFrame.isinPairFilter, ChartLayer.ofData, ebind_ok, ebind_err]
  · have hfail : ¬ (∀ l ∈ sub, ∃ r ∈ df.rows, r.label = l) := by
      intro hall
      obtain ⟨r, hr, he⟩ := hall x hx
      exact hnone r hr he
    refine ⟨?_, ?_⟩
    · simp [draw_networkx_nodes, nodesBuild, nodesSource, subsetLocStep, DFrame.locRows,
        hfail, ChartLayer.ofData, isErr, ebind_ok, ebind_err]
    · simp [draw_networkx_labels, labelsBuild, nodesSource, subsetLocStep, DFrame.locRows,
        hfail, ChartLayer.ofData, isErr, ebind_ok, ebind_err]


/-- Witness for `subset_filter_semantics` at a concrete record set. -/
theorem subset_filter_semantics_witness :
    isErr (draw_networkx_nodes demoLayout none none none (some (ChartLayer.ofData dfObj))
        (.plist ["Z"]) (.pint 400) (.pfloat 1) (.pstr "circle") (.pstr "teal") .pnone
        (.pfloat 1) none false) = true :=
  ((subset_filter_semantics demoLayout dfObj ["Z"]).2.2 "Z" (by decide) (by decide)).1

theorem source_precedence (lay lay2 : Graph → Pos) (G G2 : Option Graph)
    (pos pos2 : Option Pos) (c : Chart) (L : ChartLayer)
    (cps : Option (List (ℚ × ℚ))) (lr la q : ℚ) (lnp : Nat) (rel : Bool)
    (g : Graph) (pv : Pos) :
    (edgesSource lay G pos (some c) (some L) cps lr la lnp = .ok (L.data, L)
     ∧ arrowsSource lay G pos (some c) (some L) q rel cps = .ok (L.data, L)
     ∧ nodesSource lay G pos (some c) (some L) = .ok (L.data, L))
    ∧ (edgesSource lay G pos (some c) none cps lr la lnp
         = edgesSource lay2 G2 pos2 (some c) none cps lr la lnp
       ∧ arrowsSource lay G pos (some c) none q rel cps
         = arrowsSource lay2 G2 pos2 (some c) none q rel cps
       ∧ nodesSource lay G pos (some c) none = nodesSource lay2 G2 pos2 (some c) none)
    ∧ (∀ l0, c.layer[0]? = some l0 →
        edgesSource lay G pos (some c) none cps lr la lnp = .ok (l0.data, l0))
    ∧ (∀ l1, c.layer[1]? = some l1 →
        nodesSource lay G pos (some c) none = .ok (l1.data, l1))
    ∧ (edgesSource lay (some g) (some pv) none none cps lr la lnp
        = .ok (to_pandas_edges g pv cps lr la lnp,
               ChartLayer.ofData (to_pandas_edges g pv cps lr la lnp)))
    ∧ (∀ subset w col cm al tt lg ce interp res upd,
        draw_networkx_edges lay G pos (some c) (some L) subset w col cm al tt lg
            lr la lnp ce cps interp = .ok (res, upd)
        → upd = some { c with layer := c.layer.set 0 res })
    ∧ (∀ subset sz ow sh col cm al tt lg res upd,
        draw_networkx_nodes lay G pos (some c) (some L) subset sz ow sh col cm al tt lg
          = .ok (res, upd)
        → upd = some { c with layer := c.layer.set 1 res }) := by
  refine ⟨⟨rfl, rfl, rfl⟩, ⟨rfl, rfl, rfl⟩, fun l0 h0 => ?_, fun l1 h1 => ?_, rfl,
      fun subset w col cm al tt lg ce interp res upd hres => ?_,
      fun subset sz ow sh col cm al tt lg res upd hres => ?_⟩
  · simp [edgesSource, h0]
  · simp [nodesSource, h1]
  · cases hb : edgesBuild lay G pos (some c) (some L) subset w col cm al tt lg
        lr la lnp ce cps interp with
    | error e => simp [draw_networkx_edges, hb, ebind_err] at hres
    | ok r =>
        simp [draw_networkx_edges, hb, ebind_ok] at hres
        obtain ⟨h1, h2⟩ := hres
        subst h1
        exact h2.symm
  · cases hb : nodesBuild lay G pos (some c) (some L) subset sz ow sh col cm al tt lg with
    | error e => simp [draw_networkx_nodes, hb, ebind_err] at hres
    | ok r =>
        simp [draw_networkx_nodes, hb, ebind_ok] at hres
        obtain ⟨h1, h2⟩ := hres
        subst h1
        exact h2.symm


/-- A two-layer composite chart fixture. -/
def twoLayerChart : Chart := ⟨[ChartLayer.ofData dfObj, ChartLayer.ofData dfObj], none, none⟩

/-- Witness for `source_precedence`: the chart-supplied edge drawer reads the
first layer of a concrete two-layer chart. -/
theorem source_precedence_witness :
    edgesSource demoLayout none none (some twoLayerChart) none none 0 0 30
      = .ok ((ChartLayer.ofData dfObj).data, ChartLayer.ofData dfObj) :=
  (source_precedence demoLayout demoLayout none none none none twoLayerChart
      (ChartLayer.ofData dfObj) none 0 0 0 30 true ⟨false, [], []⟩ []).2.2.1
    (ChartLayer.ofData dfObj) rfl

/-- The span (max minus min) of a coordinate list: the length of the interval
the axis occupies. -/
def spanOf (l : List ℚ) : ℚ := lmax l - lmin l

/-- A monotone map commutes with the list maximum. -/
theorem lmax_map_mono (f : ℚ → ℚ) (hf : Monotone f) :
    ∀ l : List ℚ, l ≠ [] → lmax (l.map f) = f (lmax l)
  | [], hn => absurd rfl hn
  | [x], _ => rfl
  | x :: y :: t, _ => by
      have ih := lmax_map_mono f hf (y :: t) (by simp)
      simp only [List.map_cons] at ih
      simp [lmax, List.map_cons, ih, hf.map_max]

/-- A monotone map commutes with the list minimum. -/
theorem lmin_map_mono (f : ℚ → ℚ) (hf : Monotone f) :
    ∀ l : List ℚ, l ≠ [] → lmin (l.map f) = f (lmin l)
  | [], hn => absurd rfl hn
  | [x], _ => rfl
  | x :: y :: t, _ => by
      have ih := lmin_map_mono f hf (y :: t) (by simp)
      simp only [List.map_cons] at ih
      simp [lmin, List.map_cons, ih, hf.map_min]

/-- The normalise-then-stretch transformation is monotone. -/
theorem affine_mono (m r k : ℚ) (hr : 0 < r) (hk : 0 < k) :
    Monotone (fun t => (t - m) / r * k) := by
  intro a b hab
  have h1 : a - m ≤ b - m := by linarith
  have h2 : (a - m) / r ≤ (b - m) / r := (div_le_div_iff_of_pos_right hr).mpr h1
  exact mul_le_mul_of_nonneg_right h2 hk.le

/-- Normalising an axis of positive range to [0,1] and stretching by `k`
yields span exactly `k`. -/
theorem span_map_affine (l : List ℚ) (hl : l ≠ []) (k : ℚ)
    (hr : 0 < lmax l - lmin l) (hk : 0 < k) :
    spanOf (l.map (fun t => (t - lmin l) / (lmax l - lmin l) * k)) = k := by
  have hm : Monotone (fun t => (t - lmin l) / (lmax l - lmin l) * k) :=
    affine_mono (lmin l) (lmax l - lmin l) k hr hk
  simp [spanOf, lmax_map_mono _ hm l hl, lmin_map_mono _ hm l hl]
  field_simp

/-- Normalising an axis of positive range to [0,1] yields span exactly 1. -/
theorem span_map_affine1 (l : List ℚ) (hl : l ≠ [])
    (hr : 0 < lmax l - lmin l) :
    spanOf (l.map (fun t => (t - lmin l) / (lmax l - lmin l))) = 1 := by
  have h := span_map_affine l hl 1 hr one_pos
  simpa using h

/-- The per-axis normalisation of line 543 in the positive-range case. -/
def normPos (pos : Pos) : Pos :=
  pos.map (fun p => (p.1,
    (p.2.1 - lmin (xsOf pos)) / (lmax (xsOf pos) - lmin (xsOf pos)),
    (p.2.2 - lmin (ysOf pos)) / (lmax (ysOf pos) - lmin (ysOf pos))))

/-- The x-axis stretch of line 545 (applied when chart_width > chart_height). -/
def stretchX (k : ℚ) (l : Pos) : Pos := l.map (fun p => (p.1, p.2.1 * k, p.2.2))

/-- The y-axis stretch of line 545 (applied when chart_width < chart_height). -/
def stretchY (k : ℚ) (l : Pos) : Pos := l.map (fun p => (p.1, p.2.1, p.2.2 * k))

/-- C1 (amended): with both chart sizes specified and positive and both raw
ranges positive, the normalisation maps EACH raw axis to [0,1] and then
stretches the axis of the larger chart dimension by the chart size quotient:
the axis of the smaller chart dimension spans exactly 1 — regardless of which
raw-data axis was shorter — the other spans max(w/h, 1) resp. max(h/w, 1),
and the final coordinate aspect equals chart_width : chart_height
(span_x * h = span_y * w). -/
theorem scale_positions_aspect (pos : Pos) (w h : ℚ) (hpos : pos ≠ [])
    (hw : 0 < w) (hh : 0 < h)
    (hxr : 0 < lmax (xsOf pos) - lmin (xsOf pos))
    (hyr : 0 < lmax (ysOf pos) - lmin (ysOf pos)) :
    ∃ pos2, scale_positions pos (some w) (some h) = .ok (pos2, w, h)
      ∧ spanOf (xsOf pos2) = max (w / h) 1
      ∧ spanOf (ysOf pos2) = max (h / w) 1
      ∧ spanOf (xsOf pos2) * h = spanOf (ysOf pos2) * w
      ∧ min (spanOf (xsOf pos2)) (spanOf (ysOf pos2)) = 1 := by
  have hxs : xsOf pos ≠ [] := by simpa [xsOf] using hpos
  have hys : ysOf pos ≠ [] := by simpa [ysOf] using hpos
  rcases lt_trichotomy w h with hlt | heq | hgt
  · -- w < h : the y axis is stretched by h / w
    have e1 : scale_positions pos (some w) (some h)
        = .ok (stretchY (h / w) (normPos pos), w, h) := by
      simp [scale_positions, hpos, hxr.ne', hyr.ne', hlt.ne, hw.ne',
        not_le.mpr hlt, normPos, stretchY]
      rfl
    have sx : spanOf (xsOf (stretchY (h / w) (normPos pos))) = 1 := by
      have hbase := span_map_affine1 (xsOf pos) hxs hxr
      simp [stretchY, normPos, xsOf, List.map_map, Function.comp_def] at hbase ⊢
      convert hbase using 2
    have sy : spanOf (ysOf (stretchY (h / w) (normPos pos))) = h / w := by
      have hbase := span_map_affine (ysOf pos) hys (h / w) hyr (div_pos hh hw)
      simp [stretchY, normPos, ysOf, List.map_map, Function.comp_def] at hbase ⊢
      convert hbase using 2
    refine ⟨stretchY (h / w) (normPos pos), e1, ?_, ?_, ?_, ?_⟩
    · rw [sx, eq_comm]
      exact max_eq_right ((div_le_one hh).mpr hlt.le)
    · rw [sy, eq_comm]
      exact max_eq_left ((one_le_div hw).mpr hlt.le)
    · rw [sx, sy]
      field_simp
    · rw [sx, sy]
      exact min_eq_left ((one_le_div hw).mpr hlt.le)
  · -- w = h : no stretch, both axes span 1
    subst heq
    have e1 : scale_positions pos (some w) (some w)
        = .ok (normPos pos, w, w) := by
      simp [scale_positions, hpos, hxr.ne', hyr.ne', normPos]
      rfl
    have sx : spanOf (xsOf (normPos pos)) = 1 := by
      have hbase := span_map_affine1 (xsOf pos) hxs hxr
      simp [normPos, xsOf, List.map_map, Function.comp_def] at hbase ⊢
      convert hbase using 2
    have sy : spanOf (ysOf (normPos pos)) = 1 := by
      have hbase := span_map_affine1 (ysOf pos) hys hyr
      simp [normPos, ysOf, List.map_map, Function.comp_def] at hbase ⊢
      convert hbase using 2
    refine ⟨normPos pos, e1, ?_, ?_, ?_, ?_⟩
    · rw [sx, div_self hw.ne', eq_comm]
      exact max_self 1
    · rw [sy, div_self hw.ne', eq_comm]
      exact max_self 1
    · rw [sx, sy]
    · rw [sx, sy]
      exact min_self 1
  · -- h < w : the x axis is stretched by w / h
    have e1 : scale_positions pos (some w) (some h)
        = .ok (stretchX (w / h) (normPos pos), w, h) := by
      simp [scale_positions, hpos, hxr.ne', hyr.ne', hgt.ne', hgt.le, hh.ne',
        normPos, stretchX]
      rfl
    have sx : spanOf (xsOf (stretchX (w / h) (normPos pos))) = w / h := by
      have hbase := span_map_affine (xsOf pos) hxs (w / h) hxr (div_pos hw hh)
      simp [stretchX, normPos, xsOf, List.map_map, Function.comp_def] at hbase ⊢
      convert hbase using 2
    have sy : spanOf (ysOf (stretchX (w / h) (normPos pos))) = 1 := by
      have hbase := span_map_affine1 (ysOf pos) hys hyr
      simp [stretchX, normPos, ysOf, List.map_map, Function.comp_def] at hbase ⊢
      convert hbase using 2
    refine ⟨stretchX (w / h) (normPos pos), e1, ?_, ?_, ?_, ?_⟩
    · rw [sx, eq_comm]
      exact max_eq_left ((one_le_div hh).mpr hgt.le)
    · rw [sy, eq_comm]
      exact max_eq_right ((div_le_one hw).mpr hgt.le)
    · rw [sx, sy]
      field_simp
    · rw [sx, sy]
      exact min_eq_right ((one_le_div hh).mpr hgt.le)


/-- C1 (counterexample): for positions spanning raw width 2 and raw height 1
(the y axis is the shorter raw-data axis) with chart_width = 300 <
chart_height = 500, the scaled y coordinates span 5/3, not the unit range:
which axis keeps span 1 is decided by the chart sizes, not by the raw data. -/
theorem shorter_raw_axis_not_unit_cex :
    scale_positions [("A", 0, 0), ("B", 2, 1)] (some 300) (some 500)
      = .ok ([("A", 0, 0), ("B", 1, 5/3)], 300, 500)
    ∧ lmax (ysOf [("A", 0, 0), ("B", 2, 1)]) - lmin (ysOf [("A", 0, 0), ("B", 2, 1)])
        < lmax (xsOf [("A", 0, 0), ("B", 2, 1)]) - lmin (xsOf [("A", 0, 0), ("B", 2, 1)])
    ∧ spanOf (ysOf [("A", 0, 0), ("B", 1, 5/3)]) ≠ 1 := by
  refine ⟨?_, ?_, ?_⟩
  · simp [scale_positions, lmax, lmin, xsOf, ysOf]
    norm_num
    rfl
  · norm_num [lmax, lmin, xsOf, ysOf]
  · norm_num [spanOf, lmax, lmin, ysOf]

/-- Witness for `scale_positions_aspect` at concrete positions and the default
chart sizes. -/
theorem scale_positions_aspect_witness :
    ∃ pos2, scale_positions [("A", 0, 0), ("B", 2, 1)] (some 500) (some 300)
        = .ok (pos2, 500, 300)
      ∧ spanOf (xsOf pos2) = max ((500 : ℚ) / 300) 1
      ∧ spanOf (ysOf pos2) = max ((300 : ℚ) / 500) 1
      ∧ spanOf (xsOf pos2) * 300 = spanOf (ysOf pos2) * 500
      ∧ min (spanOf (xsOf pos2)) (spanOf (ysOf pos2)) = 1 :=
  scale_positions_aspect [("A", 0, 0), ("B", 2, 1)] 500 300 (by decide) (by norm_num)
    (by norm_num) (by norm_num [lmax, lmin, xsOf]) (by norm_num [lmax, lmin, ysOf])
